import Mathlib

/-!
# ebpf_portknocker: the traffic-control classifier of `ebpf_fw.c`

A shallow embedding of `filter_func`, `handle_ipv4`, `handle_udp` and
`handle_tcp` from `src/ebpf_portknocker/ebpf_fw.c`, and theorems about the
verdict and the authorization store (`flow_map`).

Conventions of the embedding:

* the frame is the byte sequence between `skb->data` and `skb->data_end`;
  `skb->data` is offset `0` and `skb->data_end` is the length of the sequence;
* every load from the frame is checked: a load that touches an offset at or
  beyond `data_end` yields `none`, so a handler returns `none` exactly when it
  would read out of bounds;
* the target is little-endian (the source swaps bytes unconditionally in
  `htons`/`htonl`), so multi-byte loads are little-endian;
* `uint64_t` arithmetic is arithmetic on `Nat` reduced modulo `2^64`;
* the two preprocessor symbols `KNOCK_PORT` and `KNOCK_UDP_MAGIC` are fields of
  a `Config`, `none` meaning "not defined"; `shipped` is the configuration of
  the source file as it stands;
* `bpf_printk` tracing has no effect on verdict or store and is left out.
-/

namespace PortKnocker

/-! ## Constants of the kernel headers -/

/-- The verdict `TC_ACT_OK` of `linux/pkt_cls.h`: the frame is accepted. -/
def TC_ACT_OK : Int := 0

/-- The verdict `TC_ACT_SHOT` of `linux/pkt_cls.h`: the frame is dropped. -/
def TC_ACT_SHOT : Int := 2

/-- EtherType of IPv4, `linux/if_ether.h`. -/
def ETH_P_IP : Nat := 0x0800

/-- IP protocol number of TCP, `linux/in.h`. -/
def IPPROTO_TCP : Nat := 6

/-- IP protocol number of UDP, `linux/in.h`. -/
def IPPROTO_UDP : Nat := 17

/-- Size of `struct ethhdr`. -/
def sizeof_ethhdr : Nat := 14

/-- Size of `struct iphdr`. -/
def sizeof_iphdr : Nat := 20

/-- Size of `struct udphdr`. -/
def sizeof_udphdr : Nat := 8

/-- Size of `struct tcphdr`. -/
def sizeof_tcphdr : Nat := 20

/-- Offset of `h_proto` in `struct ethhdr`. -/
def off_h_proto : Nat := 12

/-- Offset of `protocol` in `struct iphdr`. -/
def off_protocol : Nat := 9

/-- Offset of `saddr` in `struct iphdr`. -/
def off_saddr : Nat := 12

/-- Offset of `dest` in `struct udphdr` and in `struct tcphdr`. -/
def off_dest : Nat := 2

/-- Offset of the byte of `struct tcphdr` that holds the flag bit-fields
`fin:1, syn:1, rst:1, ...` (little-endian bit-field order). -/
def off_tcp_flags : Nat := 13

/-! ## Macros of the source file -/

/-- The macro `KNOCK_EXPIRE_TIME`: the window in seconds. -/
def KNOCK_EXPIRE_TIME : Nat := 60

/-- The array size `max_entries` of `flow_map`. -/
def max_entries : Nat := 100000

/-- The macro `___constant_swab16`, result truncated to 16 bits by the cast. -/
def swab16 (x : Nat) : Nat := (x % 256) * 256 + (x / 256) % 256

/-- The macro `___constant_swab32`, result truncated to 32 bits by the cast. -/
def swab32 (x : Nat) : Nat :=
  (x % 256) * 16777216 + ((x / 256) % 256) * 65536 + ((x / 65536) % 256) * 256
    + (x / 16777216) % 256

/-- The macro `htons(x)`. -/
def htons (x : Nat) : Nat := swab16 x

/-- The macro `htonl(x)`. -/
def htonl (x : Nat) : Nat := swab32 x

/-- The preprocessor configuration: which of `KNOCK_PORT` and
`KNOCK_UDP_MAGIC` are defined, and to what. -/
structure Config where
  KNOCK_PORT : Option Nat
  KNOCK_UDP_MAGIC : Option Nat
  deriving DecidableEq, Repr

/-- The configuration of the source file: `KNOCK_PORT 0`,
`KNOCK_UDP_MAGIC 0xdeadbeef`. -/
def shipped : Config := ⟨some 0, some 0xdeadbeef⟩

/-! ## The frame -/

/-- The bytes of `struct __sk_buff` between `data` and `data_end`. -/
abbrev sk_buff := List (Fin 256)

/-- The pointer `skb->data`, as an offset into the frame. -/
def skb_data : Nat := 0

/-- The pointer `skb->data_end`, as an offset into the frame. -/
def data_end (skb : sk_buff) : Nat := skb.length

/-- A checked one-byte load at offset `off`. -/
def load8 (skb : sk_buff) (off : Nat) : Option Nat :=
  match skb.get? off with
  | some b => some b.val
  | none => none

/-- A checked little-endian 16-bit load at offset `off`. -/
def load16 (skb : sk_buff) (off : Nat) : Option Nat :=
  match load8 skb off, load8 skb (off + 1) with
  | some b0, some b1 => some (b0 + 256 * b1)
  | _, _ => none

/-- A checked little-endian 32-bit load at offset `off`. -/
def load32 (skb : sk_buff) (off : Nat) : Option Nat :=
  match load16 skb off, load16 skb (off + 2) with
  | some lo, some hi => some (lo + 65536 * hi)
  | _, _ => none

/-- The bit-field `tcp->syn`: bit 1 of the flags byte. -/
def tcp_syn (skb : sk_buff) (tcp : Nat) : Option Nat :=
  match load8 skb (tcp + off_tcp_flags) with
  | some b => some (b / 2 % 2)
  | none => none

/-! ## The authorization store `flow_map` -/

/-- The entries of `flow_map`: key `uint32_t` (source address), value
`uint64_t` (timestamp of the knock). -/
abbrev Store := List (Nat × Nat)

/-- Modelled from the spec: the kernel helper `bpf_map_lookup_elem` on a
`BPF_MAP_TYPE_HASH` map, whose body is not part of the repository; it yields
the value stored under the key, if any. -/
def bpf_map_lookup_elem : Store → Nat → Option Nat
  | [], _ => none
  | (k', v') :: m, k => if k' = k then some v' else bpf_map_lookup_elem m k

/-- Overwrite in place the value stored under `k`. -/
def overwrite : Store → Nat → Nat → Store
  | [], _, _ => []
  | (k', v') :: m, k, v =>
    if k' = k then (k', v) :: m else (k', v') :: overwrite m k v

/-- Modelled from the spec: the kernel helper `bpf_map_update_elem` with flag
`BPF_ANY` on a `BPF_MAP_TYPE_HASH` map of `max_entries` slots, whose body is
not part of the repository; an existing entry is overwritten, a new entry is
created while the map has room, and the insertion fails (map unchanged) once
the map is full. The source ignores the return value. -/
def bpf_map_update_elem (m : Store) (k v : Nat) : Store :=
  match bpf_map_lookup_elem m k with
  | some _ => overwrite m k v
  | none => if m.length < max_entries then (k, v) :: m else m

/-- Modelled from the spec: the kernel helper `bpf_map_delete_elem`, whose
body is not part of the repository; it removes the entry of the key. -/
def bpf_map_delete_elem : Store → Nat → Store
  | [], _ => []
  | (k', v') :: m, k =>
    if k' = k then bpf_map_delete_elem m k else (k', v') :: bpf_map_delete_elem m k

/-- Modelled from the spec: the kernel helper `bpf_ktime_get_ns`, whose body
is not part of the repository; it yields the monotonic clock `now` as a
`uint64_t`. -/
def bpf_ktime_get_ns (now : Nat) : Nat := now % 2 ^ 64

/-- Subtraction of two `uint64_t` values. -/
def u64_sub (a b : Nat) : Nat := (a % 2 ^ 64 + (2 ^ 64 - b % 2 ^ 64)) % 2 ^ 64

/-- The constant `KNOCK_EXPIRE_TIME * 1000000000LU` as an `unsigned long`. -/
def expire_ns : Nat := (KNOCK_EXPIRE_TIME * 1000000000) % 2 ^ 64

/-! ## The handlers -/

/-- The function `handle_udp`, compiled with `KNOCK_PORT` and
`KNOCK_UDP_MAGIC` defined to the given values. -/
def handle_udp (knock_port knock_udp_magic : Nat) (now : Nat) (flow_map : Store)
    (skb : sk_buff) : Option (Int × Store) :=
  let eth := skb_data
  let ip := eth + sizeof_ethhdr
  let udp := ip + sizeof_iphdr
  if udp + sizeof_udphdr > data_end skb then
    some (TC_ACT_SHOT, flow_map)
  else
    match load16 skb (udp + off_dest) with
    | none => none
    | some dest =>
      if dest ≠ htons knock_port then
        some (TC_ACT_OK, flow_map)
      else if udp + sizeof_udphdr + 4 > data_end skb then
        some (TC_ACT_OK, flow_map)
      else
        match load32 skb (udp + sizeof_udphdr) with
        | none => none
        | some magic =>
          if magic = htonl knock_udp_magic then
            let ts := bpf_ktime_get_ns now
            match load32 skb (ip + off_saddr) with
            | none => none
            | some saddr => some (TC_ACT_OK, bpf_map_update_elem flow_map saddr ts)
          else
            some (TC_ACT_OK, flow_map)

/-- The port tested by the block of `handle_tcp` under
`#if defined(KNOCK_PORT) && !defined(KNOCK_UDP_MAGIC)`, when it is compiled. -/
def tcp_knock_port (cfg : Config) : Option Nat :=
  match cfg.KNOCK_PORT, cfg.KNOCK_UDP_MAGIC with
  | some p, none => some p
  | _, _ => none

/-- The part of `handle_tcp` from `if (tcp->dest != htons(22))` on. -/
def handle_tcp_gate (now : Nat) (flow_map : Store) (skb : sk_buff) (ip dest : Nat) :
    Option (Int × Store) :=
  if dest ≠ htons 22 then
    some (TC_ACT_OK, flow_map)
  else
    match load32 skb (ip + off_saddr) with
    | none => none
    | some saddr =>
      match bpf_map_lookup_elem flow_map saddr with
      | none => some (TC_ACT_SHOT, flow_map)
      | some value =>
        let ts := bpf_ktime_get_ns now
        if u64_sub ts value > expire_ns then
          some (TC_ACT_SHOT, bpf_map_delete_elem flow_map saddr)
        else
          some (TC_ACT_OK, flow_map)

/-- The function `handle_tcp`. -/
def handle_tcp (cfg : Config) (now : Nat) (flow_map : Store) (skb : sk_buff) :
    Option (Int × Store) :=
  let eth := skb_data
  let ip := eth + sizeof_ethhdr
  let tcp := ip + sizeof_iphdr
  if tcp + sizeof_tcphdr > data_end skb then
    some (TC_ACT_SHOT, flow_map)
  else
    match tcp_syn skb tcp with
    | none => none
    | some syn =>
      if syn = 0 then
        some (TC_ACT_OK, flow_map)
      else
        match load16 skb (tcp + off_dest) with
        | none => none
        | some dest =>
          match tcp_knock_port cfg with
          | some p =>
            if dest = htons p then
              let ts := bpf_ktime_get_ns now
              match load32 skb (ip + off_saddr) with
              | none => none
              | some saddr => some (TC_ACT_OK, bpf_map_update_elem flow_map saddr ts)
            else
              handle_tcp_gate now flow_map skb ip dest
          | none => handle_tcp_gate now flow_map skb ip dest

/-- Whether the block of `handle_ipv4` under
`#if defined(KNOCK_PORT) && defined(KNOCK_UDP_MAGIC)` is compiled, and with
which values. -/
def udp_knock (cfg : Config) : Option (Nat × Nat) :=
  match cfg.KNOCK_PORT, cfg.KNOCK_UDP_MAGIC with
  | some p, some m => some (p, m)
  | _, _ => none

/-- The part of `handle_ipv4` from `if (ip->protocol == IPPROTO_TCP)` on. -/
def handle_ipv4_tcp (cfg : Config) (now : Nat) (flow_map : Store) (skb : sk_buff)
    (protocol : Nat) : Option (Int × Store) :=
  if protocol = IPPROTO_TCP then
    handle_tcp cfg now flow_map skb
  else
    some (TC_ACT_OK, flow_map)

/-- The function `handle_ipv4`. -/
def handle_ipv4 (cfg : Config) (now : Nat) (flow_map : Store) (skb : sk_buff) :
    Option (Int × Store) :=
  let eth := skb_data
  let ip := eth + sizeof_ethhdr
  if ip + sizeof_iphdr > data_end skb then
    some (TC_ACT_SHOT, flow_map)
  else
    match load8 skb (ip + off_protocol) with
    | none => none
    | some protocol =>
      match udp_knock cfg with
      | some (p, m) =>
        if protocol = IPPROTO_UDP then
          handle_udp p m now flow_map skb
        else
          handle_ipv4_tcp cfg now flow_map skb protocol
      | none => handle_ipv4_tcp cfg now flow_map skb protocol

/-- The function `filter_func`: the verdict and the store after the frame. -/
def filter_func (cfg : Config) (now : Nat) (flow_map : Store) (skb : sk_buff) :
    Option (Int × Store) :=
  let data := skb_data
  if data + sizeof_ethhdr + sizeof_iphdr > data_end skb then
    some (TC_ACT_OK, flow_map)
  else
    match load16 skb (data + off_h_proto) with
    | none => none
    | some h_proto =>
      if h_proto = htons ETH_P_IP then
        handle_ipv4 cfg now flow_map skb
      else
        some (TC_ACT_OK, flow_map)

/-! ## Wire-level view of a frame -/

/-- The byte of the frame at offset `i`, and `0` beyond the end. -/
def byteAt (skb : sk_buff) (i : Nat) : Nat :=
  match skb.get? i with
  | some b => b.val
  | none => 0

/-- The key under which the store files the frame: `ip->saddr` as the
little-endian target loads it (frame bytes 26..29). -/
def src_key (skb : sk_buff) : Nat :=
  byteAt skb 26 + 256 * byteAt skb 27 + 65536 * (byteAt skb 28 + 256 * byteAt skb 29)

/-- The verdict and store of the shipped configuration, written over the
bytes of the frame on the wire. -/
def classify (now : Nat) (flow_map : Store) (skb : sk_buff) : Int × Store :=
  if skb.length < 34 then (TC_ACT_OK, flow_map)
  else if ¬ (byteAt skb 12 = 0x08 ∧ byteAt skb 13 = 0x00) then (TC_ACT_OK, flow_map)
  else if byteAt skb 23 = 17 then
    if skb.length < 42 then (TC_ACT_SHOT, flow_map)
    else if ¬ (byteAt skb 36 = 0 ∧ byteAt skb 37 = 0) then (TC_ACT_OK, flow_map)
    else if skb.length < 46 then (TC_ACT_OK, flow_map)
    else if byteAt skb 42 = 0xde ∧ byteAt skb 43 = 0xad ∧ byteAt skb 44 = 0xbe
        ∧ byteAt skb 45 = 0xef then
      (TC_ACT_OK, bpf_map_update_elem flow_map (src_key skb) (now % 2 ^ 64))
    else (TC_ACT_OK, flow_map)
  else if byteAt skb 23 = 6 then
    if skb.length < 54 then (TC_ACT_SHOT, flow_map)
    else if byteAt skb 47 / 2 % 2 = 0 then (TC_ACT_OK, flow_map)
    else if ¬ (byteAt skb 36 = 0 ∧ byteAt skb 37 = 22) then (TC_ACT_OK, flow_map)
    else
      match bpf_map_lookup_elem flow_map (src_key skb) with
      | none => (TC_ACT_SHOT, flow_map)
      | some value =>
        if u64_sub (now % 2 ^ 64) value > 60000000000 then
          (TC_ACT_SHOT, bpf_map_delete_elem flow_map (src_key skb))
        else (TC_ACT_OK, flow_map)
  else (TC_ACT_OK, flow_map)


/-- An IPv4 frame whose link and network headers lie inside the buffer:
at least 34 bytes, EtherType bytes `08 00`. -/
def IsIPv4 (skb : sk_buff) : Prop :=
  34 ≤ skb.length ∧ byteAt skb 12 = 0x08 ∧ byteAt skb 13 = 0x00

/-- The IP protocol number of the frame (byte 23). -/
def ip_protocol (skb : sk_buff) : Nat := byteAt skb 23

/-- The destination port of the transport header, in host order: bytes 36
and 37 of the frame are its high and low byte on the wire. -/
def dport (skb : sk_buff) : Nat := 256 * byteAt skb 36 + byteAt skb 37

/-- An IPv4 TCP frame whose TCP header lies fully inside the buffer. -/
def IsTcpFrame (skb : sk_buff) : Prop :=
  IsIPv4 skb ∧ ip_protocol skb = 6 ∧ 34 + 20 ≤ skb.length

/-- An IPv4 UDP frame whose UDP header lies fully inside the buffer. -/
def IsUdpFrame (skb : sk_buff) : Prop :=
  IsIPv4 skb ∧ ip_protocol skb = 17 ∧ 34 + 8 ≤ skb.length

/-- The SYN flag of the TCP header: bit `0x02` of byte 47. -/
def HasSyn (skb : sk_buff) : Prop := byteAt skb 47 / 2 % 2 = 1

/-- A TCP SYN segment to the protected port 22 with a readable TCP header. -/
def IsSyn22 (skb : sk_buff) : Prop :=
  IsTcpFrame skb ∧ HasSyn skb ∧ dport skb = 22

/-- The number of payload bytes the frame holds after the UDP header. -/
def udp_payload_len (skb : sk_buff) : Nat := skb.length - 42

/-- The first four payload bytes of a UDP frame are `DE AD BE EF`. -/
def HasMagic (skb : sk_buff) : Prop :=
  byteAt skb 42 = 0xde ∧ byteAt skb 43 = 0xad ∧ byteAt skb 44 = 0xbe ∧ byteAt skb 45 = 0xef

/-- A knock of the shipped configuration: a UDP datagram to port 0 whose
payload holds at least four bytes, the first four being the magic value. -/
def IsKnock (skb : sk_buff) : Prop :=
  IsUdpFrame skb ∧ dport skb = 0 ∧ 4 ≤ udp_payload_len skb ∧ HasMagic skb

instance (skb : sk_buff) : Decidable (IsIPv4 skb) := by unfold IsIPv4; infer_instance
instance (skb : sk_buff) : Decidable (IsTcpFrame skb) := by unfold IsTcpFrame; infer_instance
instance (skb : sk_buff) : Decidable (IsUdpFrame skb) := by unfold IsUdpFrame; infer_instance
instance (skb : sk_buff) : Decidable (HasSyn skb) := by unfold HasSyn; infer_instance
instance (skb : sk_buff) : Decidable (IsSyn22 skb) := by unfold IsSyn22; infer_instance
instance (skb : sk_buff) : Decidable (HasMagic skb) := by unfold HasMagic; infer_instance
instance (skb : sk_buff) : Decidable (IsKnock skb) := by unfold IsKnock; infer_instance

/-- The verdict of `filter_func`. -/
def verdict (cfg : Config) (now : Nat) (flow_map : Store) (skb : sk_buff) : Option Int :=
  match filter_func cfg now flow_map skb with
  | some r => some r.1
  | none => none

/-- The store after `filter_func` has processed the frame `ev.2` at time
`ev.1`. -/
def step (cfg : Config) (flow_map : Store) (ev : Nat × sk_buff) : Store :=
  match filter_func cfg ev.1 flow_map ev.2 with
  | some r => r.2
  | none => flow_map

/-- The store after `filter_func` has processed a sequence of timed frames,
in order. -/
def run (cfg : Config) (flow_map : Store) (evs : List (Nat × sk_buff)) : Store :=
  evs.foldl (step cfg) flow_map

/-- The keys of the store are pairwise distinct, as in a hash map. -/
def Store.WF (m : Store) : Prop := (m.map Prod.fst).Nodup

instance (m : Store) : Decidable (Store.WF m) := by unfold Store.WF; infer_instance

/-- The entries the store holds for the key `k`. -/
def entries_of (m : Store) (k : Nat) : Store := m.filter (fun e => e.1 = k)

/-! ## Sample frames -/

/-- A TCP SYN from 10.0.0.1 to 10.0.0.2 port 22, 54 bytes. -/
def syn22_frame : sk_buff :=
  [0, 0, 0, 0, 0, 1, 0, 0, 0, 0, 0, 2, 0x08, 0x00,
   0x45, 0, 0, 40, 0, 0, 0, 0, 64, 6, 0, 0, 10, 0, 0, 1, 10, 0, 0, 2,
   0x30, 0x39, 0, 22, 0, 0, 0, 0, 0, 0, 0, 0, 0x50, 0x02, 0xff, 0xff, 0, 0, 0, 0]

/-- A UDP datagram from 10.0.0.1 to 10.0.0.2 port 0 with the four payload
bytes `DE AD BE EF`, 46 bytes. -/
def knock_frame : sk_buff :=
  [0, 0, 0, 0, 0, 1, 0, 0, 0, 0, 0, 2, 0x08, 0x00,
   0x45, 0, 0, 32, 0, 0, 0, 0, 64, 17, 0, 0, 10, 0, 0, 1, 10, 0, 0, 2,
   0x30, 0x39, 0, 0, 0, 12, 0, 0,
   0xde, 0xad, 0xbe, 0xef]

/-- The source address 10.0.0.1 as the little-endian target loads it. -/
def addr_10_0_0_1 : Nat := 16777226


/-- A store at capacity: the 100000 keys 0, 1, ..., 99999, each with
timestamp 0. It has no entry for 10.0.0.1. -/
def full_store : Store := (List.range 100000).map (fun i => (i, 0))

/-- A UDP datagram from 10.0.0.1 to 10.0.0.2 port 0 with the five payload
bytes `DE AD BE EF 00`, 47 bytes. -/
def knock5_frame : sk_buff :=
  [0, 0, 0, 0, 0, 1, 0, 0, 0, 0, 0, 2, 0x08, 0x00,
   0x45, 0, 0, 33, 0, 0, 0, 0, 64, 17, 0, 0, 10, 0, 0, 1, 10, 0, 0, 2,
   0x30, 0x39, 0, 0, 0, 13, 0, 0,
   0xde, 0xad, 0xbe, 0xef, 0x00]

/-- An IPv4 frame cut after 33 bytes, one byte short of the end of the IP
header. -/
def short_frame : sk_buff :=
  [0, 0, 0, 0, 0, 1, 0, 0, 0, 0, 0, 2, 0x08, 0x00,
   0x45, 0, 0, 40, 0, 0, 0, 0, 64, 6, 0, 0, 10, 0, 0, 1, 10, 0, 0]

/-- A TCP SYN from 10.0.0.1 to port 22 cut after 53 bytes, one byte short of
the end of the TCP header. -/
def tcp_cut_frame : sk_buff :=
  [0, 0, 0, 0, 0, 1, 0, 0, 0, 0, 0, 2, 0x08, 0x00,
   0x45, 0, 0, 40, 0, 0, 0, 0, 64, 6, 0, 0, 10, 0, 0, 1, 10, 0, 0, 2,
   0x30, 0x39, 0, 22, 0, 0, 0, 0, 0, 0, 0, 0, 0x50, 0x02, 0xff, 0xff, 0, 0, 0]

/-- A UDP datagram from 10.0.0.1 to port 53 cut after 41 bytes, one byte
short of the end of the UDP header. -/
def udp_cut_frame : sk_buff :=
  [0, 0, 0, 0, 0, 1, 0, 0, 0, 0, 0, 2, 0x08, 0x00,
   0x45, 0, 0, 28, 0, 0, 0, 0, 64, 17, 0, 0, 10, 0, 0, 1, 10, 0, 0, 2,
   0x30, 0x39, 0, 53, 0, 8, 0]

/-- A TCP SYN from 10.0.0.1 to 10.0.0.2 port 80, 54 bytes. -/
def syn80_frame : sk_buff :=
  [0, 0, 0, 0, 0, 1, 0, 0, 0, 0, 0, 2, 0x08, 0x00,
   0x45, 0, 0, 40, 0, 0, 0, 0, 64, 6, 0, 0, 10, 0, 0, 1, 10, 0, 0, 2,
   0x30, 0x39, 0, 80, 0, 0, 0, 0, 0, 0, 0, 0, 0x50, 0x02, 0xff, 0xff, 0, 0, 0, 0]

/-- The other configuration the source documents (method 1, "knocking on port
0"): `KNOCK_PORT 0` defined and `KNOCK_UDP_MAGIC` not defined. -/
def bare : Config := ⟨some 0, none⟩

/-- A TCP SYN from 10.0.0.1 to 10.0.0.2 port 0, 54 bytes: the segment the
bundled `tcp_zero_port_knocker` client makes the kernel send. -/
def syn0_frame : sk_buff :=
  [0, 0, 0, 0, 0, 1, 0, 0, 0, 0, 0, 2, 0x08, 0x00,
   0x45, 0, 0, 40, 0, 0, 0, 0, 64, 6, 0, 0, 10, 0, 0, 1, 10, 0, 0, 2,
   0x30, 0x39, 0, 0, 0, 0, 0, 0, 0, 0, 0, 0, 0x50, 0x02, 0xff, 0xff, 0, 0, 0, 0]

/-- A TCP segment from 10.0.0.1 to 10.0.0.2 port 22 with only the ACK flag
(`0x10`) set, 54 bytes. -/
def ack22_frame : sk_buff :=
  [0, 0, 0, 0, 0, 1, 0, 0, 0, 0, 0, 2, 0x08, 0x00,
   0x45, 0, 0, 40, 0, 0, 0, 0, 64, 6, 0, 0, 10, 0, 0, 1, 10, 0, 0, 2,
   0x30, 0x39, 0, 22, 0, 0, 0, 1, 0, 0, 0, 1, 0x50, 0x10, 0xff, 0xff, 0, 0, 0, 0]

/-- An ARP request (EtherType `08 06`), 42 bytes. -/
def arp_frame : sk_buff :=
  [0xff, 0xff, 0xff, 0xff, 0xff, 0xff, 0, 0, 0, 0, 0, 2, 0x08, 0x06,
   0, 1, 0x08, 0, 6, 4, 0, 1, 0, 0, 0, 0, 0, 2, 10, 0, 0, 1,
   0, 0, 0, 0, 0, 0, 10, 0, 0, 2]

/-- The SYN of `syn22_frame` with another IP header: IHL 6 instead of 5,
the more-fragments flag and a fragment offset set, another TTL. The
bytes at offsets 12, 13, 23, 26..29, 36, 37, 42..45 and the SYN bit are those
of `syn22_frame`. -/
def syn22_ihl6_frame : sk_buff :=
  [0, 0, 0, 0, 0, 9, 0, 0, 0, 0, 0, 2, 0x08, 0x00,
   0x46, 0, 0, 40, 0, 7, 0x20, 0x10, 3, 6, 0, 0, 10, 0, 0, 1, 10, 0, 0, 9,
   0x30, 0x39, 0, 22, 0, 0, 0, 0, 0, 0, 0, 0, 0x60, 0x12, 0xff, 0xff, 0, 0, 0, 0]

/-- The frame offsets whose bytes the shipped classifier looks at in full;
of byte 47 it looks at the SYN bit only. -/
def inspected_offsets : List Nat := [12, 13, 23, 26, 27, 28, 29, 36, 37, 42, 43, 44, 45]

/-! ## The handlers over the bytes on the wire -/

theorem byteAt_lt (skb : sk_buff) (i : Nat) : byteAt skb i < 256 := by
  unfold byteAt
  cases skb.get? i with
  | none => decide
  | some b => exact b.isLt

theorem load8_eq (skb : sk_buff) (i : Nat) (h : i < skb.length) :
    load8 skb i = some (byteAt skb i) := by
  unfold load8 byteAt
  cases hg : skb.get? i with
  | none => exact absurd h (by simpa [List.get?_eq_none] using hg)
  | some b => rfl

theorem load16_eq (skb : sk_buff) (i : Nat) (h : i + 1 < skb.length) :
    load16 skb i = some (byteAt skb i + 256 * byteAt skb (i + 1)) := by
  unfold load16
  rw [load8_eq skb i (by omega), load8_eq skb (i + 1) h]

theorem load32_eq (skb : sk_buff) (i : Nat) (h : i + 3 < skb.length) :
    load32 skb i = some (byteAt skb i + 256 * byteAt skb (i + 1)
      + 65536 * (byteAt skb (i + 2) + 256 * byteAt skb (i + 3))) := by
  unfold load32
  rw [load16_eq skb i (by omega), load16_eq skb (i + 2) (by omega)]

theorem htons_ETH_P_IP : htons ETH_P_IP = 8 := by decide
theorem htons_zero : htons 0 = 0 := by decide
theorem htons_22 : htons 22 = 5632 := by decide
theorem htonl_magic : htonl 0xdeadbeef = 4022250974 := by decide
theorem expire_ns_eq : expire_ns = 60000000000 := by decide

theorem handle_udp_shipped (now : Nat) (flow_map : Store) (skb : sk_buff) :
    handle_udp 0 0xdeadbeef now flow_map skb = some (
      if skb.length < 42 then (TC_ACT_SHOT, flow_map)
      else if ¬ (byteAt skb 36 = 0 ∧ byteAt skb 37 = 0) then (TC_ACT_OK, flow_map)
      else if skb.length < 46 then (TC_ACT_OK, flow_map)
      else if byteAt skb 42 = 0xde ∧ byteAt skb 43 = 0xad ∧ byteAt skb 44 = 0xbe
          ∧ byteAt skb 45 = 0xef then
        (TC_ACT_OK, bpf_map_update_elem flow_map (src_key skb) (now % 2 ^ 64))
      else (TC_ACT_OK, flow_map)) := by
  have b36 := byteAt_lt skb 36
  have b37 := byteAt_lt skb 37
  have b42 := byteAt_lt skb 42
  have b43 := byteAt_lt skb 43
  have b44 := byteAt_lt skb 44
  have b45 := byteAt_lt skb 45
  unfold handle_udp
  simp only [skb_data, sizeof_ethhdr, sizeof_iphdr, sizeof_udphdr, off_dest, off_saddr,
    data_end, htons_zero, htonl_magic, bpf_ktime_get_ns, src_key, Nat.reduceAdd]
  by_cases h42 : skb.length < 42
  · simp only [h42, if_true]
  · simp only [load16_eq skb 36 (by omega), Nat.reduceAdd]
    by_cases h46 : skb.length < 46
    · split_ifs <;> with_reducible rfl
    · simp only [load32_eq skb 42 (by omega), load32_eq skb 26 (by omega), Nat.reduceAdd]
      split_ifs <;> first | rfl | omega

theorem handle_tcp_shipped (now : Nat) (flow_map : Store) (skb : sk_buff) :
    handle_tcp shipped now flow_map skb = some (
      if skb.length < 54 then (TC_ACT_SHOT, flow_map)
      else if byteAt skb 47 / 2 % 2 = 0 then (TC_ACT_OK, flow_map)
      else if ¬ (byteAt skb 36 = 0 ∧ byteAt skb 37 = 22) then (TC_ACT_OK, flow_map)
      else
        match bpf_map_lookup_elem flow_map (src_key skb) with
        | none => (TC_ACT_SHOT, flow_map)
        | some value =>
          if u64_sub (now % 2 ^ 64) value > 60000000000 then
            (TC_ACT_SHOT, bpf_map_delete_elem flow_map (src_key skb))
          else (TC_ACT_OK, flow_map)) := by
  have b36 := byteAt_lt skb 36
  have b37 := byteAt_lt skb 37
  unfold handle_tcp
  simp only [skb_data, sizeof_ethhdr, sizeof_iphdr, sizeof_tcphdr, off_dest, off_saddr,
    off_tcp_flags, data_end, tcp_syn, tcp_knock_port, shipped, handle_tcp_gate, htons_22,
    expire_ns_eq, bpf_ktime_get_ns, src_key, Nat.reduceAdd]
  by_cases h54 : skb.length < 54
  · simp only [h54, if_true]
  · simp only [load8_eq skb 47 (by omega), load16_eq skb 36 (by omega),
      load32_eq skb 26 (by omega), Nat.reduceAdd]
    cases bpf_map_lookup_elem flow_map
        (byteAt skb 26 + 256 * byteAt skb 27 + 65536 * (byteAt skb 28 + 256 * byteAt skb 29)) with
    | none => split_ifs <;> first | rfl | omega
    | some value => simp only []; split_ifs <;> first | rfl | omega

theorem filter_func_shipped (now : Nat) (flow_map : Store) (skb : sk_buff) :
    filter_func shipped now flow_map skb = some (classify now flow_map skb) := by
  have b12 := byteAt_lt skb 12
  have b13 := byteAt_lt skb 13
  unfold filter_func classify
  simp only [skb_data, sizeof_ethhdr, sizeof_iphdr, off_h_proto, data_end, htons_ETH_P_IP,
    Nat.reduceAdd]
  by_cases h34 : skb.length < 34
  · simp only [h34, if_true]
  · simp only [load16_eq skb 12 (by omega), Nat.reduceAdd, h34, if_false]
    by_cases hip : byteAt skb 12 = 8 ∧ byteAt skb 13 = 0
    · have : byteAt skb 12 + 256 * byteAt skb 13 = 8 := by omega
      simp only [this, if_true, hip, and_self, not_true_eq_false, if_false]
      unfold handle_ipv4 handle_ipv4_tcp
      simp only [handle_tcp_shipped now flow_map skb]
      simp only [skb_data, sizeof_ethhdr, sizeof_iphdr, off_protocol, data_end, udp_knock,
        shipped, IPPROTO_UDP, IPPROTO_TCP, Nat.reduceAdd, load8_eq skb 23 (by omega),
        handle_udp_shipped now flow_map skb]
      split_ifs <;> first | with_reducible rfl | omega
    · have : ¬ (byteAt skb 12 + 256 * byteAt skb 13 = 8) := by omega
      simp only [this, if_false, hip, not_false_eq_true, if_true]

/-! ## The store helpers -/

theorem lookup_overwrite_self (m : Store) (k v : Nat) {w : Nat}
    (h : bpf_map_lookup_elem m k = some w) :
    bpf_map_lookup_elem (overwrite m k v) k = some v := by
  induction m with
  | nil => simp [bpf_map_lookup_elem] at h
  | cons e m ih =>
    obtain ⟨k', v'⟩ := e
    by_cases hk : k' = k
    · simp [overwrite, bpf_map_lookup_elem, hk]
    · simp only [bpf_map_lookup_elem, hk, if_false] at h
      simp [overwrite, bpf_map_lookup_elem, hk, ih h]

theorem lookup_overwrite_ne (m : Store) (k v a : Nat) (h : a ≠ k) :
    bpf_map_lookup_elem (overwrite m k v) a = bpf_map_lookup_elem m a := by
  induction m with
  | nil => rfl
  | cons e m ih =>
    obtain ⟨k', v'⟩ := e
    by_cases hk : k' = k
    · subst hk
      have : ¬ k' = a := fun h' => h h'.symm
      simp [overwrite, bpf_map_lookup_elem, this]
    · by_cases ha : k' = a
      · subst ha
        simp [overwrite, bpf_map_lookup_elem, hk]
      · simp [overwrite, bpf_map_lookup_elem, hk, ha, ih]

theorem length_overwrite (m : Store) (k v : Nat) : (overwrite m k v).length = m.length := by
  induction m with
  | nil => rfl
  | cons e m ih =>
    obtain ⟨k', v'⟩ := e
    by_cases hk : k' = k <;> simp [overwrite, hk, ih]

theorem keys_overwrite (m : Store) (k v : Nat) :
    (overwrite m k v).map Prod.fst = m.map Prod.fst := by
  induction m with
  | nil => rfl
  | cons e m ih =>
    obtain ⟨k', v'⟩ := e
    by_cases hk : k' = k <;> simp [overwrite, hk, ih]

theorem lookup_eq_none_iff (m : Store) (k : Nat) :
    bpf_map_lookup_elem m k = none ↔ k ∉ m.map Prod.fst := by
  induction m with
  | nil => simp [bpf_map_lookup_elem]
  | cons e m ih =>
    obtain ⟨k', v'⟩ := e
    by_cases hk : k' = k
    · simp [bpf_map_lookup_elem, hk]
    · have : ¬ k = k' := fun h => hk h.symm
      simp [bpf_map_lookup_elem, hk, ih, this]

/-- An update succeeds when the key is present or the map has room. -/
theorem lookup_update_self (m : Store) (k v : Nat)
    (h : bpf_map_lookup_elem m k ≠ none ∨ m.length < max_entries) :
    bpf_map_lookup_elem (bpf_map_update_elem m k v) k = some v := by
  unfold bpf_map_update_elem
  cases hl : bpf_map_lookup_elem m k with
  | some w => exact lookup_overwrite_self m k v hl
  | none =>
    rcases h with h | h
    · exact absurd hl h
    · simp [h, bpf_map_lookup_elem]

theorem lookup_update_ne (m : Store) (k v a : Nat) (h : a ≠ k) :
    bpf_map_lookup_elem (bpf_map_update_elem m k v) a = bpf_map_lookup_elem m a := by
  unfold bpf_map_update_elem
  cases hl : bpf_map_lookup_elem m k with
  | some w => exact lookup_overwrite_ne m k v a h
  | none =>
    by_cases hc : m.length < max_entries
    · have : ¬ k = a := fun h' => h h'.symm
      simp [hc, bpf_map_lookup_elem, this]
    · simp [hc]

/-- An update of a full map that lacks the key changes nothing. -/
theorem update_full (m : Store) (k v : Nat) (hl : bpf_map_lookup_elem m k = none)
    (hc : max_entries ≤ m.length) : bpf_map_update_elem m k v = m := by
  unfold bpf_map_update_elem
  simp [hl, Nat.not_lt.mpr hc]

theorem lookup_update_cases (m : Store) (k v a : Nat) {T : Nat}
    (h : bpf_map_lookup_elem (bpf_map_update_elem m k v) a = some T) :
    (a = k ∧ T = v) ∨ bpf_map_lookup_elem m a = some T := by
  by_cases ha : a = k
  · subst ha
    by_cases hs : bpf_map_lookup_elem m a ≠ none ∨ m.length < max_entries
    · rw [lookup_update_self m a v hs] at h
      exact Or.inl ⟨rfl, (Option.some.inj h).symm⟩
    · have h1 : bpf_map_lookup_elem m a = none := by
        by_contra hne; exact hs (Or.inl hne)
      have h2 : max_entries ≤ m.length := by
        by_contra hlt; exact hs (Or.inr (Nat.lt_of_not_le hlt))
      rw [update_full m a v h1 h2] at h
      exact Or.inr h
  · rw [lookup_update_ne m k v a ha] at h
    exact Or.inr h

theorem lookup_delete_self (m : Store) (k : Nat) :
    bpf_map_lookup_elem (bpf_map_delete_elem m k) k = none := by
  induction m with
  | nil => rfl
  | cons e m ih =>
    obtain ⟨k', v'⟩ := e
    by_cases hk : k' = k <;> simp [bpf_map_delete_elem, bpf_map_lookup_elem, hk, ih]

theorem lookup_delete_ne (m : Store) (k a : Nat) (h : a ≠ k) :
    bpf_map_lookup_elem (bpf_map_delete_elem m k) a = bpf_map_lookup_elem m a := by
  induction m with
  | nil => rfl
  | cons e m ih =>
    obtain ⟨k', v'⟩ := e
    by_cases hk : k' = k
    · subst hk
      have : ¬ k' = a := fun h' => h h'.symm
      simp [bpf_map_delete_elem, bpf_map_lookup_elem, ih, this]
    · by_cases ha : k' = a
      · subst ha
        simp [bpf_map_delete_elem, bpf_map_lookup_elem, hk]
      · simp [bpf_map_delete_elem, bpf_map_lookup_elem, hk, ha, ih]

theorem lookup_delete_cases (m : Store) (k a : Nat) {T : Nat}
    (h : bpf_map_lookup_elem (bpf_map_delete_elem m k) a = some T) :
    bpf_map_lookup_elem m a = some T := by
  by_cases ha : a = k
  · subst ha; rw [lookup_delete_self] at h; cases h
  · rwa [lookup_delete_ne m k a ha] at h

/-! ## Unsigned 64-bit arithmetic -/

theorem u64_sub_of_le (a b : Nat) (hab : b ≤ a) (ha : a < 2 ^ 64) :
    u64_sub (a % 2 ^ 64) b = a - b := by
  unfold u64_sub
  norm_num at ha ⊢
  omega

/-! ## The shipped classifier on the frames of interest -/

theorem dport_eq_iff (skb : sk_buff) (p : Nat) (hp : p < 256) :
    dport skb = p ↔ byteAt skb 36 = 0 ∧ byteAt skb 37 = p := by
  have b36 := byteAt_lt skb 36
  have b37 := byteAt_lt skb 37
  unfold dport
  omega

/-- A TCP SYN to port 22 is decided by the store entry of its source. -/
theorem filter_func_syn22 (now : Nat) (flow_map : Store) (skb : sk_buff) (h : IsSyn22 skb) :
    filter_func shipped now flow_map skb = some (
      match bpf_map_lookup_elem flow_map (src_key skb) with
      | none => (TC_ACT_SHOT, flow_map)
      | some value =>
        if u64_sub (now % 2 ^ 64) value > 60000000000 then
          (TC_ACT_SHOT, bpf_map_delete_elem flow_map (src_key skb))
        else (TC_ACT_OK, flow_map)) := by
  obtain ⟨⟨⟨h34, h12, h13⟩, hp, h54⟩, hsyn, hd⟩ := h
  have hd' := (dport_eq_iff skb 22 (by decide)).mp hd
  unfold ip_protocol at hp
  unfold HasSyn at hsyn
  rw [filter_func_shipped]
  unfold classify
  rw [if_neg (by omega), if_neg (by simp [h12, h13]), if_neg (by omega), if_pos hp,
    if_neg (by omega), if_neg (by omega), if_neg (by simp [hd'])]

/-- C1: for every store, every time `now`, and every IPv4 TCP frame whose TCP
header lies fully inside the buffer, with the SYN flag set and destination
port 22, if the store has no entry for the frame's source address then
`filter_func` returns `TC_ACT_SHOT` (DROP) and the store is unchanged. -/
theorem C1_unknown_source_syn_dropped (now : Nat) (flow_map : Store) (skb : sk_buff)
    (htcp : IsTcpFrame skb) (hsyn : HasSyn skb) (hport : dport skb = 22)
    (hnone : bpf_map_lookup_elem flow_map (src_key skb) = none) :
    filter_func shipped now flow_map skb = some (TC_ACT_SHOT, flow_map) := by
  rw [filter_func_syn22 now flow_map skb ⟨htcp, hsyn, hport⟩, hnone]

/-- Witness of C1: a SYN from 10.0.0.1 to port 22 at time 1000 against the
empty store. -/
theorem C1_unknown_source_syn_dropped_witness :
    IsTcpFrame syn22_frame ∧ HasSyn syn22_frame ∧ dport syn22_frame = 22
      ∧ bpf_map_lookup_elem [] (src_key syn22_frame) = none
      ∧ filter_func shipped 1000 [] syn22_frame = some (TC_ACT_SHOT, []) :=
  ⟨by decide, by decide, by decide, by decide,
    C1_unknown_source_syn_dropped 1000 [] syn22_frame (by decide) (by decide) (by decide)
      (by decide)⟩

/-- C2: for every source address whose store entry holds timestamp `T` and
every time `now = T + Δ` that fits 64 bits, a TCP SYN frame to port 22 from
that address evaluated at `now` yields `TC_ACT_OK` (ACCEPT) if and only if
`Δ ≤ 60 s = 60000000000 ns`, and `TC_ACT_SHOT` (DROP) otherwise; in particular
`Δ` exactly 60 s is ACCEPT. -/
theorem C2_accept_iff_within_window (T Δ : Nat) (flow_map : Store) (skb : sk_buff)
    (hsyn : IsSyn22 skb) (hentry : bpf_map_lookup_elem flow_map (src_key skb) = some T)
    (hfit : T + Δ < 2 ^ 64) :
    (verdict shipped (T + Δ) flow_map skb = some TC_ACT_OK ↔ Δ ≤ 60000000000)
      ∧ (verdict shipped (T + Δ) flow_map skb = some TC_ACT_SHOT ↔ ¬ Δ ≤ 60000000000)
      ∧ (Δ = 60000000000 → verdict shipped (T + Δ) flow_map skb = some TC_ACT_OK) := by
  have hsub : u64_sub ((T + Δ) % 2 ^ 64) T = Δ := by
    rw [u64_sub_of_le (T + Δ) T (Nat.le_add_right T Δ) hfit]; omega
  have hv : verdict shipped (T + Δ) flow_map skb
      = some (if Δ > 60000000000 then TC_ACT_SHOT else TC_ACT_OK) := by
    unfold verdict
    rw [filter_func_syn22 (T + Δ) flow_map skb hsyn, hentry]
    simp only [hsub]
    split_ifs <;> rfl
  rw [hv]
  refine ⟨?_, ?_, ?_⟩
  · split_ifs with h
    · simp [TC_ACT_OK, TC_ACT_SHOT]; omega
    · simp; omega
  · split_ifs with h
    · simp; omega
    · simp [TC_ACT_OK, TC_ACT_SHOT]; omega
  · intro h
    rw [if_neg (by omega)]

/-- Witness of C2: an entry recorded at time 5, a SYN exactly 60 s later. -/
theorem C2_accept_iff_within_window_witness :
    IsSyn22 syn22_frame
      ∧ bpf_map_lookup_elem [(addr_10_0_0_1, 5)] (src_key syn22_frame) = some 5
      ∧ verdict shipped (5 + 60000000000) [(addr_10_0_0_1, 5)] syn22_frame = some TC_ACT_OK :=
  ⟨by decide, by decide,
    (C2_accept_iff_within_window 5 60000000000 [(addr_10_0_0_1, 5)] syn22_frame (by decide)
      (by decide) (by decide)).2.2 rfl⟩

/-- A knock is accepted and files the source under the current time. -/
theorem filter_func_knock (now : Nat) (flow_map : Store) (skb : sk_buff) (h : IsKnock skb) :
    filter_func shipped now flow_map skb
      = some (TC_ACT_OK, bpf_map_update_elem flow_map (src_key skb) (now % 2 ^ 64)) := by
  obtain ⟨⟨⟨h34, h12, h13⟩, hp, h42⟩, hd, hlen, hm⟩ := h
  have hd' := (dport_eq_iff skb 0 (by decide)).mp hd
  unfold ip_protocol at hp
  unfold udp_payload_len at hlen
  unfold HasMagic at hm
  rw [filter_func_shipped]
  unfold classify
  rw [if_neg (by omega), if_neg (by simp [h12, h13]), if_pos hp, if_neg (by omega),
    if_neg (by simp [hd']), if_neg (by omega), if_pos hm]

/-- The store after a frame is the store before, or the store with the
source refreshed by a knock, or the store with the source deleted by a SYN to
port 22. -/
theorem step_cases (now : Nat) (flow_map : Store) (skb : sk_buff) :
    step shipped flow_map (now, skb) = flow_map
      ∨ (IsKnock skb ∧ step shipped flow_map (now, skb)
          = bpf_map_update_elem flow_map (src_key skb) (now % 2 ^ 64))
      ∨ (IsSyn22 skb ∧ step shipped flow_map (now, skb)
          = bpf_map_delete_elem flow_map (src_key skb)) := by
  by_cases hk : IsKnock skb
  · right; left
    exact ⟨hk, by simp only [step, filter_func_knock now flow_map skb hk]⟩
  · by_cases hs : IsSyn22 skb
    · simp only [step, filter_func_syn22 now flow_map skb hs]
      cases bpf_map_lookup_elem flow_map (src_key skb) with
      | none => exact Or.inl rfl
      | some value =>
        simp only []
        split_ifs
        · exact Or.inr (Or.inr ⟨hs, rfl⟩)
        · exact Or.inl rfl
    · left
      have b36 := byteAt_lt skb 36
      have b37 := byteAt_lt skb 37
      simp only [step, filter_func_shipped, classify]
      simp only [IsKnock, IsUdpFrame, IsIPv4, ip_protocol, udp_payload_len, HasMagic,
        dport] at hk
      simp only [IsSyn22, IsTcpFrame, IsIPv4, ip_protocol, HasSyn, dport] at hs
      split_ifs <;> first | rfl | (exfalso; omega)

theorem run_nil (cfg : Config) (flow_map : Store) : run cfg flow_map [] = flow_map := rfl

theorem run_cons (cfg : Config) (flow_map : Store) (ev : Nat × sk_buff)
    (evs : List (Nat × sk_buff)) :
    run cfg flow_map (ev :: evs) = run cfg (step cfg flow_map ev) evs := rfl

/-- Every entry of the store after a run was in the store before the run or
was written by a knock of the run, from that source and at that time. -/
theorem run_entry_origin (evs : List (Nat × sk_buff)) (flow_map : Store) (A T : Nat)
    (h : bpf_map_lookup_elem (run shipped flow_map evs) A = some T) :
    bpf_map_lookup_elem flow_map A = some T
      ∨ ∃ ev ∈ evs, IsKnock ev.2 ∧ src_key ev.2 = A ∧ ev.1 % 2 ^ 64 = T := by
  induction evs generalizing flow_map with
  | nil => exact Or.inl h
  | cons ev evs ih =>
    obtain ⟨now, skb⟩ := ev
    rw [run_cons] at h
    rcases ih _ h with h1 | ⟨ev', hmem, hev'⟩
    · rcases step_cases now flow_map skb with hs | ⟨hk, hs⟩ | ⟨_, hs⟩
      · rw [hs] at h1; exact Or.inl h1
      · rw [hs] at h1
        rcases lookup_update_cases _ _ _ _ h1 with ⟨hA, hT⟩ | h2
        · exact Or.inr ⟨(now, skb), List.mem_cons_self _ _, hk, hA.symm, hT.symm⟩
        · exact Or.inl h2
      · rw [hs] at h1
        exact Or.inl (lookup_delete_cases _ _ _ h1)
    · exact Or.inr ⟨ev', List.mem_cons_of_mem _ hmem, hev'⟩

/-- A source without an entry stays without one as long as no knock from it
is processed. -/
theorem run_preserves_none (evs : List (Nat × sk_buff)) (flow_map : Store) (A : Nat)
    (h : bpf_map_lookup_elem flow_map A = none)
    (hno : ∀ ev ∈ evs, ¬ (IsKnock ev.2 ∧ src_key ev.2 = A)) :
    bpf_map_lookup_elem (run shipped flow_map evs) A = none := by
  induction evs generalizing flow_map with
  | nil => exact h
  | cons ev evs ih =>
    obtain ⟨now, skb⟩ := ev
    rw [run_cons]
    apply ih
    · rcases step_cases now flow_map skb with hs | ⟨hk, hs⟩ | ⟨_, hs⟩
      · rw [hs]; exact h
      · have hne : A ≠ src_key skb := fun hA =>
          hno (now, skb) (List.mem_cons_self _ _) ⟨hk, hA.symm⟩
        rw [hs, lookup_update_ne _ _ _ _ hne]; exact h
      · rw [hs]
        by_cases hA : A = src_key skb
        · rw [hA]; exact lookup_delete_self _ _
        · rw [lookup_delete_ne _ _ _ hA]; exact h
    · intro ev' hmem
      exact hno ev' (List.mem_cons_of_mem _ hmem)

/-- C3: starting from the empty store, for every finite sequence of frames
processed by `filter_func` at non-decreasing 64-bit times: whenever a TCP SYN
frame to port 22 from source address `A` is given the verdict `TC_ACT_OK`
(ACCEPT) at time `t`, some earlier frame of the sequence was a knock from the
same address (a UDP datagram to port 0 carrying the magic bytes
`DE AD BE EF`), processed at a time `t'` with `t - t' ≤ 60 s`. -/
theorem C3_accept_only_after_knock (pre rest : List (Nat × sk_buff)) (t : Nat) (skb : sk_buff)
    (hmono : ((pre ++ (t, skb) :: rest).map Prod.fst).Pairwise (fun a b => a ≤ b))
    (hclock : ∀ ev ∈ pre ++ (t, skb) :: rest, ev.1 < 2 ^ 64)
    (hsyn : IsSyn22 skb)
    (hacc : verdict shipped t (run shipped [] pre) skb = some TC_ACT_OK) :
    ∃ ev ∈ pre, IsKnock ev.2 ∧ src_key ev.2 = src_key skb ∧ ev.1 ≤ t
      ∧ t - ev.1 ≤ 60000000000 := by
  have ht : t < 2 ^ 64 := hclock (t, skb) (by simp)
  have hle : ∀ ev ∈ pre, ev.1 ≤ t := by
    intro ev hev
    rw [List.map_append, List.pairwise_append] at hmono
    exact hmono.2.2 ev.1 (List.mem_map_of_mem _ hev) t (by simp)
  unfold verdict at hacc
  rw [filter_func_syn22 t _ skb hsyn] at hacc
  cases hl : bpf_map_lookup_elem (run shipped [] pre) (src_key skb) with
  | none =>
    rw [hl] at hacc
    simp [TC_ACT_OK, TC_ACT_SHOT] at hacc
  | some value =>
    rw [hl] at hacc
    simp only [] at hacc
    rcases run_entry_origin pre [] _ _ hl with h0 | ⟨ev, hmem, hk, hA, hT⟩
    · simp [bpf_map_lookup_elem] at h0
    · refine ⟨ev, hmem, hk, hA, hle ev hmem, ?_⟩
      have hev : ev.1 < 2 ^ 64 := hclock ev (by simp [hmem])
      rw [Nat.mod_eq_of_lt hev] at hT
      subst hT
      rw [u64_sub_of_le t ev.1 (hle ev hmem) ht] at hacc
      by_contra hgt
      rw [if_pos (by omega)] at hacc
      simp [TC_ACT_OK, TC_ACT_SHOT] at hacc

/-- Witness of C3: a knock at time 1000 followed by a SYN at time 2000. -/
theorem C3_accept_only_after_knock_witness :
    verdict shipped 2000 (run shipped [] [(1000, knock_frame)]) syn22_frame = some TC_ACT_OK
      ∧ ∃ ev ∈ [(1000, knock_frame)], IsKnock ev.2 ∧ src_key ev.2 = src_key syn22_frame
          ∧ ev.1 ≤ 2000 ∧ 2000 - ev.1 ≤ 60000000000 :=
  ⟨by decide,
    C3_accept_only_after_knock [(1000, knock_frame)] [] 2000 syn22_frame (by decide)
      (by decide) (by decide) (by decide)⟩

/-- C4: when a TCP SYN frame to port 22 finds an expired entry
(`now - timestamp > 60 s`) for its source address, the verdict is
`TC_ACT_SHOT` (DROP) and the resulting store has no entry for that address;
every later TCP SYN to port 22 from that address, at any time, is dropped
too, as long as no knock from that address is processed in between. -/
theorem C4_expired_entry_deleted (now T : Nat) (flow_map : Store) (skb : sk_buff)
    (hsyn : IsSyn22 skb) (hentry : bpf_map_lookup_elem flow_map (src_key skb) = some T)
    (hclock : now < 2 ^ 64) (hexp : now - T > 60000000000) :
    filter_func shipped now flow_map skb
        = some (TC_ACT_SHOT, bpf_map_delete_elem flow_map (src_key skb))
      ∧ bpf_map_lookup_elem (bpf_map_delete_elem flow_map (src_key skb)) (src_key skb) = none
      ∧ ∀ (evs : List (Nat × sk_buff)) (later : Nat) (skb' : sk_buff),
          (∀ ev ∈ evs, ¬ (IsKnock ev.2 ∧ src_key ev.2 = src_key skb)) →
          IsSyn22 skb' → src_key skb' = src_key skb →
          verdict shipped later
            (run shipped (bpf_map_delete_elem flow_map (src_key skb)) evs) skb'
            = some TC_ACT_SHOT := by
  refine ⟨?_, lookup_delete_self _ _, ?_⟩
  · rw [filter_func_syn22 now flow_map skb hsyn, hentry]
    simp only []
    rw [u64_sub_of_le now T (by omega) hclock, if_pos hexp]
  · intro evs later skb' hno hsyn' hsrc
    have hnone := run_preserves_none evs _ (src_key skb) (lookup_delete_self flow_map _) hno
    unfold verdict
    rw [filter_func_syn22 later _ skb' hsyn', hsrc, hnone]

/-- Witness of C4: an entry of time 5 met by a SYN at 5 + 61 s; then another
SYN, and the first SYN again one nanosecond later. -/
theorem C4_expired_entry_deleted_witness :
    filter_func shipped 61000000005 [(addr_10_0_0_1, 5)] syn22_frame = some (TC_ACT_SHOT, [])
      ∧ verdict shipped 61000000006
          (run shipped (bpf_map_delete_elem [(addr_10_0_0_1, 5)] (src_key syn22_frame))
            [(61000000006, syn22_frame)]) syn22_frame = some TC_ACT_SHOT :=
  have h := C4_expired_entry_deleted 61000000005 5 [(addr_10_0_0_1, 5)] syn22_frame
    (by decide) (by decide) (by decide) (by decide)
  ⟨h.1, h.2.2 [(61000000006, syn22_frame)] 61000000006 syn22_frame (by decide) (by decide) rfl⟩

/-! ## Re-knocking -/

theorem entries_of_eq_nil (m : Store) (k : Nat) (h : k ∉ m.map Prod.fst) :
    entries_of m k = [] := by
  induction m with
  | nil => rfl
  | cons e m ih =>
    obtain ⟨k', v'⟩ := e
    simp only [List.map_cons, List.mem_cons, not_or] at h
    have hk : ¬ k' = k := fun h' => h.1 h'.symm
    simp only [entries_of, List.filter_cons, hk, decide_False]
    exact ih h.2

/-- In a well-formed store the lookup result is the only entry of the key. -/
theorem entries_of_lookup (m : Store) (k v : Nat) (hwf : Store.WF m)
    (h : bpf_map_lookup_elem m k = some v) : entries_of m k = [(k, v)] := by
  induction m with
  | nil => simp [bpf_map_lookup_elem] at h
  | cons e m ih =>
    obtain ⟨k', v'⟩ := e
    unfold Store.WF at hwf
    simp only [List.map_cons, List.nodup_cons] at hwf
    by_cases hk : k' = k
    · subst hk
      simp only [bpf_map_lookup_elem, if_true, Option.some.injEq] at h
      subst h
      have := entries_of_eq_nil m k' hwf.1
      unfold entries_of at this
      simp [entries_of, List.filter_cons, this]
    · simp only [bpf_map_lookup_elem, hk, if_false] at h
      have := ih hwf.2 h
      unfold entries_of at this
      simp [entries_of, List.filter_cons, hk, this]

/-- An update keeps the keys of the store pairwise distinct. -/
theorem update_WF (m : Store) (k v : Nat) (hwf : Store.WF m) :
    Store.WF (bpf_map_update_elem m k v) := by
  unfold bpf_map_update_elem
  cases hl : bpf_map_lookup_elem m k with
  | some w =>
    simp only []
    unfold Store.WF
    rw [keys_overwrite]
    exact hwf
  | none =>
    simp only []
    split_ifs
    · unfold Store.WF
      simp only [List.map_cons, List.nodup_cons]
      exact ⟨(lookup_eq_none_iff m k).mp hl, hwf⟩
    · exact hwf

/-- C5 as amended: re-knocking refreshes the timestamp. For every source
address `A`, times `T1` and `T2`, and every store that has an entry for `A`
or room for one: after a knock from `A` at `T1` followed by a knock from `A`
at `T2`, the store holds exactly one entry for `A`, with timestamp `T2`, so a
TCP SYN to port 22 from `A` at a time `t ≥ T2` is accepted iff
`t - T2 ≤ 60 s`, regardless of `T1`. -/
theorem C5_reknock_refreshes (A T1 T2 : Nat) (flow_map : Store) (k1 k2 : sk_buff)
    (hwf : Store.WF flow_map)
    (hroom : bpf_map_lookup_elem flow_map A ≠ none ∨ flow_map.length < max_entries)
    (hk1 : IsKnock k1) (hk2 : IsKnock k2) (ha1 : src_key k1 = A) (ha2 : src_key k2 = A)
    (hT2 : T2 < 2 ^ 64) :
    entries_of (run shipped flow_map [(T1, k1), (T2, k2)]) A = [(A, T2)]
      ∧ ∀ (t : Nat) (skb : sk_buff), IsSyn22 skb → src_key skb = A → T2 ≤ t → t < 2 ^ 64 →
          (verdict shipped t (run shipped flow_map [(T1, k1), (T2, k2)]) skb = some TC_ACT_OK
            ↔ t - T2 ≤ 60000000000) := by
  have hrun : run shipped flow_map [(T1, k1), (T2, k2)]
      = bpf_map_update_elem (bpf_map_update_elem flow_map A (T1 % 2 ^ 64)) A T2 := by
    simp only [run_cons, run_nil, step, filter_func_knock _ _ _ hk1,
      filter_func_knock _ _ _ hk2, ha1, ha2, Nat.mod_eq_of_lt hT2]
  have h1 : bpf_map_lookup_elem (bpf_map_update_elem flow_map A (T1 % 2 ^ 64)) A
      = some (T1 % 2 ^ 64) := lookup_update_self _ _ _ hroom
  have h2 : bpf_map_lookup_elem (run shipped flow_map [(T1, k1), (T2, k2)]) A = some T2 := by
    rw [hrun]
    exact lookup_update_self _ _ _ (Or.inl (by rw [h1]; exact Option.some_ne_none _))
  have hwf2 : Store.WF (run shipped flow_map [(T1, k1), (T2, k2)]) := by
    rw [hrun]
    exact update_WF _ _ _ (update_WF _ _ _ hwf)
  refine ⟨entries_of_lookup _ _ _ hwf2 h2, ?_⟩
  intro t skb hsyn hsrc hle ht
  unfold verdict
  rw [filter_func_syn22 t _ skb hsyn, hsrc, h2]
  simp only []
  rw [u64_sub_of_le t T2 hle ht]
  split_ifs with h
  · simp [TC_ACT_OK, TC_ACT_SHOT]; omega
  · simp; omega

/-- Witness of C5: from the empty store, a knock at `T = 7`, a knock at
`T + 50 s`, and a SYN at `T + 80 s`, which is accepted. -/
theorem C5_reknock_refreshes_witness :
    entries_of (run shipped [] [(7, knock_frame), (50000000007, knock_frame)]) addr_10_0_0_1
        = [(addr_10_0_0_1, 50000000007)]
      ∧ verdict shipped 80000000007
          (run shipped [] [(7, knock_frame), (50000000007, knock_frame)]) syn22_frame
          = some TC_ACT_OK :=
  have h := C5_reknock_refreshes addr_10_0_0_1 7 50000000007 [] knock_frame knock_frame
    (by decide) (Or.inr (by decide)) (by decide) (by decide) (by decide) (by decide)
    (by decide)
  ⟨h.1, (h.2 80000000007 syn22_frame (by decide) (by decide) (by decide) (by decide)).mpr
    (by decide)⟩

theorem full_store_length : full_store.length = max_entries := by
  unfold full_store
  rw [List.length_map, List.length_range]
  rfl

theorem full_store_lookup : bpf_map_lookup_elem full_store addr_10_0_0_1 = none := by
  rw [lookup_eq_none_iff]
  unfold full_store
  intro h
  rw [List.map_map] at h
  obtain ⟨i, hi, heq⟩ := List.mem_map.mp h
  have hlt : i < 100000 := List.mem_range.mp hi
  have hi' : i = addr_10_0_0_1 := heq
  unfold addr_10_0_0_1 at hi'
  omega

/-- On a store that is full and has no entry for the source, knocks are
accepted but not recorded, and a SYN to port 22 from the source is dropped. -/
theorem knocks_on_full_store (flow_map : Store) (A T1 T2 t : Nat) (k1 k2 skb : sk_buff)
    (hfull : max_entries ≤ flow_map.length) (hnone : bpf_map_lookup_elem flow_map A = none)
    (hk1 : IsKnock k1) (hk2 : IsKnock k2) (ha1 : src_key k1 = A) (ha2 : src_key k2 = A)
    (hsyn : IsSyn22 skb) (hsrc : src_key skb = A) :
    run shipped flow_map [(T1, k1), (T2, k2)] = flow_map
      ∧ bpf_map_lookup_elem (run shipped flow_map [(T1, k1), (T2, k2)]) A = none
      ∧ verdict shipped t (run shipped flow_map [(T1, k1), (T2, k2)]) skb
          = some TC_ACT_SHOT := by
  have hupd : ∀ v, bpf_map_update_elem flow_map A v = flow_map := fun v =>
    update_full flow_map A v hnone hfull
  have hrun : run shipped flow_map [(T1, k1), (T2, k2)] = flow_map := by
    simp only [run_cons, run_nil, step, filter_func_knock _ _ _ hk1,
      filter_func_knock _ _ _ hk2, ha1, ha2, hupd]
  refine ⟨hrun, ?_, ?_⟩
  · rw [hrun]; exact hnone
  · unfold verdict
    rw [hrun, filter_func_syn22 t _ _ hsyn, hsrc, hnone]

/-- Counterexample to C5 as stated: on a store that is full and has no entry
for 10.0.0.1, two knocks from 10.0.0.1 at times 1000 and 2000 leave the store
without an entry for it, and a SYN to port 22 at time 2000 is dropped although
`2000 - 2000 ≤ 60 s`. -/
theorem C5_counterexample :
    IsKnock knock_frame ∧ src_key knock_frame = addr_10_0_0_1
      ∧ IsSyn22 syn22_frame ∧ src_key syn22_frame = addr_10_0_0_1
      ∧ bpf_map_lookup_elem
          (run shipped full_store [(1000, knock_frame), (2000, knock_frame)]) addr_10_0_0_1
          = none
      ∧ verdict shipped 2000
          (run shipped full_store [(1000, knock_frame), (2000, knock_frame)]) syn22_frame
          = some TC_ACT_SHOT :=
  have h := knocks_on_full_store full_store addr_10_0_0_1 1000 2000 2000 knock_frame
    knock_frame syn22_frame (le_of_eq full_store_length.symm) full_store_lookup
    (by decide) (by decide) (by decide) (by decide) (by decide) (by decide)
  ⟨by decide, by decide, by decide, by decide, h.2.1, h.2.2⟩

/-! ## Knock recognition -/

/-- C6, the code at the failing input: a UDP datagram to port 0 whose
payload is the five bytes `DE AD BE EF 00` is filed as a knock, although its
payload length is not 4: the store gains an entry for the source. -/
theorem C6_long_payload_is_recorded :
    IsUdpFrame knock5_frame ∧ dport knock5_frame = 0 ∧ udp_payload_len knock5_frame = 5
      ∧ filter_func shipped 1000 [] knock5_frame
          = some (TC_ACT_OK, [(addr_10_0_0_1, 1000)]) := by
  decide

/-- C7: for every IPv4 UDP frame addressed to port 0 with a 4-byte payload
and every store that is not at capacity: if the payload bytes in wire order
are `DE AD BE EF` the resulting store maps the frame's source address to the
current time `now` and the verdict is `TC_ACT_OK` (ACCEPT); for any other
4-byte payload the store is unchanged and the verdict is `TC_ACT_OK`. -/
theorem C7_magic_decides_knock (now : Nat) (flow_map : Store) (skb : sk_buff)
    (hudp : IsUdpFrame skb) (hport : dport skb = 0) (hlen : udp_payload_len skb = 4)
    (hroom : flow_map.length < max_entries) (hclock : now < 2 ^ 64) :
    (HasMagic skb →
        filter_func shipped now flow_map skb
            = some (TC_ACT_OK, bpf_map_update_elem flow_map (src_key skb) now)
          ∧ bpf_map_lookup_elem (bpf_map_update_elem flow_map (src_key skb) now) (src_key skb)
            = some now)
      ∧ (¬ HasMagic skb → filter_func shipped now flow_map skb = some (TC_ACT_OK, flow_map)) := by
  constructor
  · intro hm
    have hk : IsKnock skb := ⟨hudp, hport, by omega, hm⟩
    rw [filter_func_knock now flow_map skb hk, Nat.mod_eq_of_lt hclock]
    exact ⟨rfl, lookup_update_self _ _ _ (Or.inr hroom)⟩
  · intro hm
    obtain ⟨⟨h34, h12, h13⟩, hp, h42⟩ := hudp
    have hd' := (dport_eq_iff skb 0 (by decide)).mp hport
    unfold ip_protocol at hp
    unfold udp_payload_len at hlen
    unfold HasMagic at hm
    rw [filter_func_shipped]
    unfold classify
    rw [if_neg (by omega), if_neg (by simp [h12, h13]), if_pos hp, if_neg (by omega),
      if_neg (by simp [hd']), if_neg (by omega), if_neg hm]

/-- Witness of C7: the magic datagram at time 1000 against the empty store. -/
theorem C7_magic_decides_knock_witness :
    HasMagic knock_frame
      ∧ filter_func shipped 1000 [] knock_frame = some (TC_ACT_OK, [(addr_10_0_0_1, 1000)])
      ∧ bpf_map_lookup_elem [(addr_10_0_0_1, 1000)] addr_10_0_0_1 = some 1000 :=
  have h := (C7_magic_decides_knock 1000 [] knock_frame (by decide) (by decide) (by decide)
    (by decide) (by decide)).1 (by decide)
  ⟨by decide, h.1, h.2⟩

/-! ## Truncated frames -/

/-- C8 as amended: for every frame whose valid length is smaller than the
link-layer plus network-layer headers (fewer than 14 + 20 = 34 bytes),
`filter_func` returns `TC_ACT_OK` (ACCEPT) and leaves the store unchanged, for
every frame content, store and configuration. -/
theorem C8_short_frame_accepted (cfg : Config) (now : Nat) (flow_map : Store) (skb : sk_buff)
    (hshort : skb.length < 14 + 20) :
    filter_func cfg now flow_map skb = some (TC_ACT_OK, flow_map) := by
  unfold filter_func
  simp only [skb_data, sizeof_ethhdr, sizeof_iphdr, data_end]
  rw [if_pos (by omega)]

/-- Witness of C8: an IPv4 frame of 33 bytes. -/
theorem C8_short_frame_accepted_witness :
    short_frame.length < 14 + 20
      ∧ filter_func shipped 1000 [(addr_10_0_0_1, 5)] short_frame
          = some (TC_ACT_OK, [(addr_10_0_0_1, 5)]) :=
  ⟨by decide, C8_short_frame_accepted shipped 1000 [(addr_10_0_0_1, 5)] short_frame (by decide)⟩

/-- Counterexample to C8 as stated: a frame of 33 bytes is not dropped, its
verdict is `TC_ACT_OK`. -/
theorem C8_counterexample :
    short_frame.length < 34
      ∧ verdict shipped 1000 [] short_frame = some TC_ACT_OK
      ∧ verdict shipped 1000 [] short_frame ≠ some TC_ACT_SHOT := by
  decide

/-- C9 as amended: for every IPv4 frame with readable link and network
headers (length ≥ 34) whose protocol is TCP or UDP but whose transport header
does not fit inside the buffer (length < 34 + 20 for TCP, length < 34 + 8 for
UDP), `filter_func` returns `TC_ACT_SHOT` (DROP) and leaves the store
unchanged. -/
theorem C9_cut_transport_header_dropped (now : Nat) (flow_map : Store) (skb : sk_buff)
    (hip : IsIPv4 skb)
    (hcut : (ip_protocol skb = 6 ∧ skb.length < 34 + 20)
      ∨ (ip_protocol skb = 17 ∧ skb.length < 34 + 8)) :
    filter_func shipped now flow_map skb = some (TC_ACT_SHOT, flow_map) := by
  obtain ⟨h34, h12, h13⟩ := hip
  unfold ip_protocol at hcut
  rw [filter_func_shipped]
  unfold classify
  rcases hcut with ⟨hp, hl⟩ | ⟨hp, hl⟩
  · rw [if_neg (by omega), if_neg (by simp [h12, h13]), if_neg (by omega), if_pos hp,
      if_pos (by omega)]
  · rw [if_neg (by omega), if_neg (by simp [h12, h13]), if_pos hp, if_pos (by omega)]

/-- Witness of C9: a UDP datagram cut after 41 bytes. -/
theorem C9_cut_transport_header_dropped_witness :
    IsIPv4 udp_cut_frame ∧ ip_protocol udp_cut_frame = 17 ∧ udp_cut_frame.length < 34 + 8
      ∧ filter_func shipped 1000 [] udp_cut_frame = some (TC_ACT_SHOT, []) :=
  ⟨by decide, by decide, by decide,
    C9_cut_transport_header_dropped 1000 [] udp_cut_frame (by decide)
      (Or.inr ⟨by decide, by decide⟩)⟩

/-- Counterexample to C9 as stated: an IPv4 TCP frame of 53 bytes, whose TCP
header does not fit, is not accepted: its verdict is `TC_ACT_SHOT`. -/
theorem C9_counterexample :
    IsIPv4 tcp_cut_frame ∧ ip_protocol tcp_cut_frame = 6 ∧ tcp_cut_frame.length < 34 + 20
      ∧ verdict shipped 1000 [] tcp_cut_frame = some TC_ACT_SHOT
      ∧ verdict shipped 1000 [] tcp_cut_frame ≠ some TC_ACT_OK := by
  decide

/-! ## Other ports -/

/-- C10: for every store and every IPv4 TCP or UDP frame with a readable
transport header whose destination port is neither the sentinel port 0 nor
the protected port 22, `filter_func` returns `TC_ACT_OK` (ACCEPT) and leaves
the store unchanged, whatever the store holds for the source address. -/
theorem C10_other_port_accepted (now : Nat) (flow_map : Store) (skb : sk_buff)
    (hframe : IsTcpFrame skb ∨ IsUdpFrame skb)
    (hne0 : dport skb ≠ 0) (hne22 : dport skb ≠ 22) :
    filter_func shipped now flow_map skb = some (TC_ACT_OK, flow_map) := by
  have b36 := byteAt_lt skb 36
  have b37 := byteAt_lt skb 37
  unfold dport at hne0 hne22
  rw [filter_func_shipped]
  unfold classify
  rcases hframe with ⟨⟨h34, h12, h13⟩, hp, hl⟩ | ⟨⟨h34, h12, h13⟩, hp, hl⟩
  · unfold ip_protocol at hp
    rw [if_neg (by omega), if_neg (by simp [h12, h13]), if_neg (by omega), if_pos hp,
      if_neg (by omega)]
    split_ifs <;> first | rfl | (exfalso; omega)
  · unfold ip_protocol at hp
    rw [if_neg (by omega), if_neg (by simp [h12, h13]), if_pos hp, if_neg (by omega)]
    split_ifs <;> first | rfl | (exfalso; omega)

/-- Witness of C10: a SYN to port 80 from a source whose entry has expired. -/
theorem C10_other_port_accepted_witness :
    (IsTcpFrame syn80_frame ∨ IsUdpFrame syn80_frame) ∧ dport syn80_frame = 80
      ∧ filter_func shipped 90000000000 [(addr_10_0_0_1, 5)] syn80_frame
          = some (TC_ACT_OK, [(addr_10_0_0_1, 5)]) :=
  ⟨by decide, by decide,
    C10_other_port_accepted 90000000000 [(addr_10_0_0_1, 5)] syn80_frame (by decide)
      (by decide) (by decide)⟩

/-! ## Pass-through traffic -/

/-- C11: for every IPv4 TCP frame with a readable TCP header and the SYN
flag clear, whatever its destination port, port 22 included, `filter_func`
returns `TC_ACT_OK` (ACCEPT) and leaves the store unchanged, for every store
(also one with no entry or an expired entry for the source address). -/
theorem C11_non_syn_accepted (now : Nat) (flow_map : Store) (skb : sk_buff)
    (htcp : IsTcpFrame skb) (hclear : ¬ HasSyn skb) :
    filter_func shipped now flow_map skb = some (TC_ACT_OK, flow_map) := by
  obtain ⟨⟨h34, h12, h13⟩, hp, h54⟩ := htcp
  unfold ip_protocol at hp
  unfold HasSyn at hclear
  rw [filter_func_shipped]
  unfold classify
  rw [if_neg (by omega), if_neg (by simp [h12, h13]), if_neg (by omega), if_pos hp,
    if_neg (by omega), if_pos (by omega)]

/-- Witness of C11: an ACK-only segment to port 22 from a source without an
entry. -/
theorem C11_non_syn_accepted_witness :
    IsTcpFrame ack22_frame ∧ dport ack22_frame = 22 ∧ ¬ HasSyn ack22_frame
      ∧ bpf_map_lookup_elem [] (src_key ack22_frame) = none
      ∧ filter_func shipped 1000 [] ack22_frame = some (TC_ACT_OK, []) :=
  ⟨by decide, by decide, by decide, by decide,
    C11_non_syn_accepted 1000 [] ack22_frame (by decide) (by decide)⟩

/-- C12: the permissive default. For every frame whose EtherType (bytes 12
and 13) is not IPv4, and for every IPv4 frame whose protocol number (byte
23) is neither TCP (6) nor UDP (17), `filter_func` returns `TC_ACT_OK`
(ACCEPT) and leaves the store unchanged, for every store and frame content. -/
theorem C12_permissive_default (now : Nat) (flow_map : Store) (skb : sk_buff)
    (hother : ¬ (byteAt skb 12 = 0x08 ∧ byteAt skb 13 = 0x00)
      ∨ (ip_protocol skb ≠ 6 ∧ ip_protocol skb ≠ 17)) :
    filter_func shipped now flow_map skb = some (TC_ACT_OK, flow_map) := by
  unfold ip_protocol at hother
  rw [filter_func_shipped]
  unfold classify
  rcases hother with h | ⟨h6, h17⟩
  · rw [if_pos h, ite_self]
  · rw [if_neg h17, if_neg h6]
    simp only [ite_self]

/-- Witness of C12: an ARP request. -/
theorem C12_permissive_default_witness :
    ¬ (byteAt arp_frame 12 = 0x08 ∧ byteAt arp_frame 13 = 0x00)
      ∧ filter_func shipped 1000 [(addr_10_0_0_1, 5)] arp_frame
          = some (TC_ACT_OK, [(addr_10_0_0_1, 5)]) :=
  ⟨by decide, C12_permissive_default 1000 [(addr_10_0_0_1, 5)] arp_frame (Or.inl (by decide))⟩

/-! ## The decision engine and the store -/

theorem mem_of_mem_delete (m : Store) (k : Nat) (e : Nat × Nat)
    (h : e ∈ bpf_map_delete_elem m k) : e ∈ m := by
  induction m with
  | nil => exact h
  | cons e' m ih =>
    obtain ⟨k', v'⟩ := e'
    by_cases hk : k' = k
    · simp only [bpf_map_delete_elem, hk, if_true] at h
      exact List.mem_cons_of_mem _ (ih h)
    · simp only [bpf_map_delete_elem, hk, if_false, List.mem_cons] at h
      rcases h with h | h
      · rw [h]; exact List.mem_cons_self _ _
      · exact List.mem_cons_of_mem _ (ih h)

/-- The shipped classifier on an IPv4 TCP frame: the store is read, and at
most the entry of the source is deleted. -/
theorem filter_func_tcp (now : Nat) (flow_map : Store) (skb : sk_buff)
    (hip : IsIPv4 skb) (hp : ip_protocol skb = 6) :
    filter_func shipped now flow_map skb = some (TC_ACT_OK, flow_map)
      ∨ filter_func shipped now flow_map skb = some (TC_ACT_SHOT, flow_map)
      ∨ filter_func shipped now flow_map skb
          = some (TC_ACT_SHOT, bpf_map_delete_elem flow_map (src_key skb)) := by
  obtain ⟨h34, h12, h13⟩ := hip
  unfold ip_protocol at hp
  rw [filter_func_shipped]
  unfold classify
  rw [if_neg (by omega), if_neg (by simp [h12, h13]), if_neg (by omega), if_pos hp]
  cases bpf_map_lookup_elem flow_map (src_key skb) with
  | none => split_ifs <;> simp
  | some value => simp only []; split_ifs <;> simp

/-- C13: the decision engine never writes a timestamp. For every IPv4 TCP
frame, every store and every time, the store after `filter_func` is the input
store or the input store with the source address's entry deleted, so each
entry present afterwards was present before with the same timestamp; a frame
that is accepted, in particular an accepted SYN to port 22, leaves the store
untouched, and no TCP frame creates an entry. -/
theorem C13_tcp_never_writes (now : Nat) (flow_map : Store) (skb : sk_buff)
    (hip : IsIPv4 skb) (hp : ip_protocol skb = 6) :
    ∃ (v : Int) (after : Store), filter_func shipped now flow_map skb = some (v, after)
      ∧ (after = flow_map ∨ after = bpf_map_delete_elem flow_map (src_key skb))
      ∧ (∀ e ∈ after, e ∈ flow_map)
      ∧ (∀ k T, bpf_map_lookup_elem after k = some T → bpf_map_lookup_elem flow_map k = some T)
      ∧ (v = TC_ACT_OK → after = flow_map) := by
  rcases filter_func_tcp now flow_map skb hip hp with h | h | h
  · exact ⟨_, _, h, Or.inl rfl, fun e he => he, fun k T hk => hk, fun _ => rfl⟩
  · exact ⟨_, _, h, Or.inl rfl, fun e he => he, fun k T hk => hk, fun _ => rfl⟩
  · refine ⟨_, _, h, Or.inr rfl, fun e he => mem_of_mem_delete _ _ e he,
      fun k T hk => lookup_delete_cases _ _ _ hk, fun hv => ?_⟩
    exact absurd hv (by decide)

/-- Witness of C13: a SYN to port 22 accepted 1 s after the knock of time 5;
the entry keeps the timestamp 5. -/
theorem C13_tcp_never_writes_witness :
    IsIPv4 syn22_frame ∧ ip_protocol syn22_frame = 6
      ∧ filter_func shipped 1000000005 [(addr_10_0_0_1, 5)] syn22_frame
          = some (TC_ACT_OK, [(addr_10_0_0_1, 5)])
      ∧ ∃ (v : Int) (after : Store),
          filter_func shipped 1000000005 [(addr_10_0_0_1, 5)] syn22_frame = some (v, after)
          ∧ (after = [(addr_10_0_0_1, 5)]
            ∨ after = bpf_map_delete_elem [(addr_10_0_0_1, 5)] (src_key syn22_frame))
          ∧ (∀ e ∈ after, e ∈ [(addr_10_0_0_1, 5)])
          ∧ (∀ k T, bpf_map_lookup_elem after k = some T →
              bpf_map_lookup_elem [(addr_10_0_0_1, 5)] k = some T)
          ∧ (v = TC_ACT_OK → after = [(addr_10_0_0_1, 5)]) :=
  ⟨by decide, by decide, by decide,
    C13_tcp_never_writes 1000000005 [(addr_10_0_0_1, 5)] syn22_frame (by decide) (by decide)⟩

/-- C14: store capacity exhaustion is non-fatal and silent. When the store
holds its maximum number of entries (100000) and has no entry for the source
address, a knock from that address still returns `TC_ACT_OK` (ACCEPT), the
store is left unchanged, and a subsequent TCP SYN to port 22 from that
address is dropped; when the store is full but has an entry for the address,
the knock overwrites its timestamp. -/
theorem C14_full_store_knock (now : Nat) (flow_map : Store) (skb : sk_buff)
    (hfull : flow_map.length = max_entries) (hknock : IsKnock skb) (hclock : now < 2 ^ 64) :
    (bpf_map_lookup_elem flow_map (src_key skb) = none →
        filter_func shipped now flow_map skb = some (TC_ACT_OK, flow_map)
          ∧ ∀ (later : Nat) (syn : sk_buff), IsSyn22 syn → src_key syn = src_key skb →
              verdict shipped later flow_map syn = some TC_ACT_SHOT)
      ∧ (∀ T, bpf_map_lookup_elem flow_map (src_key skb) = some T →
          ∃ after, filter_func shipped now flow_map skb = some (TC_ACT_OK, after)
            ∧ bpf_map_lookup_elem after (src_key skb) = some now
            ∧ after.length = max_entries) := by
  constructor
  · intro hnone
    refine ⟨?_, ?_⟩
    · rw [filter_func_knock now flow_map skb hknock,
        update_full flow_map _ _ hnone (le_of_eq hfull.symm)]
    · intro later syn hsyn hsrc
      unfold verdict
      rw [filter_func_syn22 later flow_map syn hsyn, hsrc, hnone]
  · intro T hT
    refine ⟨bpf_map_update_elem flow_map (src_key skb) now, ?_, ?_, ?_⟩
    · rw [filter_func_knock now flow_map skb hknock, Nat.mod_eq_of_lt hclock]
    · exact lookup_update_self _ _ _ (Or.inl (by rw [hT]; exact Option.some_ne_none _))
    · unfold bpf_map_update_elem
      rw [hT]
      simp only []
      rw [length_overwrite, hfull]

/-- Witness of C14: a knock from 10.0.0.1 against a store of 100000 other
keys, followed by a SYN to port 22 from 10.0.0.1. -/
theorem C14_full_store_knock_witness :
    full_store.length = max_entries
      ∧ bpf_map_lookup_elem full_store (src_key knock_frame) = none
      ∧ filter_func shipped 1000 full_store knock_frame = some (TC_ACT_OK, full_store)
      ∧ verdict shipped 2000 full_store syn22_frame = some TC_ACT_SHOT :=
  have h := (C14_full_store_knock 1000 full_store knock_frame full_store_length (by decide)
    (by decide)).1 full_store_lookup
  ⟨full_store_length, full_store_lookup, h.1, h.2 2000 syn22_frame (by decide) (by decide)⟩

/-! ## The bare-connection configuration -/

/-- In the bare-connection configuration a TCP SYN to port 0 with a readable
TCP header is accepted and files the source under the current time. -/
theorem filter_func_bare_knock (now : Nat) (flow_map : Store) (skb : sk_buff)
    (htcp : IsTcpFrame skb) (hsyn : HasSyn skb) (hport : dport skb = 0) :
    filter_func bare now flow_map skb
      = some (TC_ACT_OK, bpf_map_update_elem flow_map (src_key skb) (now % 2 ^ 64)) := by
  obtain ⟨⟨h34, h12, h13⟩, hp, h54⟩ := htcp
  have hd := (dport_eq_iff skb 0 (by decide)).mp hport
  unfold ip_protocol at hp
  unfold HasSyn at hsyn
  unfold filter_func handle_ipv4 handle_ipv4_tcp handle_tcp
  simp only [skb_data, sizeof_ethhdr, sizeof_iphdr, sizeof_tcphdr, off_h_proto, off_protocol,
    off_dest, off_saddr, off_tcp_flags, data_end, htons_ETH_P_IP, udp_knock, tcp_knock_port,
    tcp_syn, bare, IPPROTO_TCP, htons_zero, bpf_ktime_get_ns, src_key, Nat.reduceAdd]
  simp only [load16_eq skb 12 (by omega), load8_eq skb 23 (by omega),
    load8_eq skb 47 (by omega), load16_eq skb 36 (by omega), load32_eq skb 26 (by omega),
    Nat.reduceAdd, h12, h13, hp, hsyn, hd.1, hd.2]
  rw [if_neg (by omega)]
  simp only [Nat.reduceMul, Nat.reduceAdd, if_true, one_ne_zero, if_false]
  rw [if_neg (by omega), if_neg (by omega)]

/-- In the bare-connection configuration a frame whose IP protocol byte is
UDP is accepted and leaves the store unchanged. -/
theorem filter_func_bare_udp (now : Nat) (flow_map : Store) (skb : sk_buff)
    (hp : ip_protocol skb = 17) :
    filter_func bare now flow_map skb = some (TC_ACT_OK, flow_map) := by
  unfold ip_protocol at hp
  unfold filter_func handle_ipv4 handle_ipv4_tcp
  simp only [skb_data, sizeof_ethhdr, sizeof_iphdr, off_h_proto, off_protocol, data_end,
    htons_ETH_P_IP, udp_knock, bare, IPPROTO_TCP, Nat.reduceAdd]
  by_cases h34 : skb.length < 34
  · rw [if_pos (by omega)]
  · rw [if_neg (by omega)]
    simp only [load16_eq skb 12 (by omega), load8_eq skb 23 (by omega), Nat.reduceAdd, hp]
    split_ifs <;> first | rfl | (exfalso; omega)

/-- C15 as amended: in the bare-connection knock mode (`KNOCK_PORT` defined,
`KNOCK_UDP_MAGIC` not defined), for every IPv4 TCP frame with a readable TCP
header, SYN set and destination port 0, `filter_func` calls the store update
for the frame's source address with the current time `now` and returns
`TC_ACT_OK` (ACCEPT) without consulting the gating logic of the protected
port; the store then maps the source address to `now` provided it already had
an entry for it or was below capacity. In this mode no UDP frame modifies the
store. -/
theorem C15_bare_knock (now : Nat) (flow_map : Store) (skb : sk_buff)
    (htcp : IsTcpFrame skb) (hsyn : HasSyn skb) (hport : dport skb = 0)
    (hclock : now < 2 ^ 64) :
    filter_func bare now flow_map skb
        = some (TC_ACT_OK, bpf_map_update_elem flow_map (src_key skb) now)
      ∧ ((bpf_map_lookup_elem flow_map (src_key skb) ≠ none ∨ flow_map.length < max_entries) →
          bpf_map_lookup_elem (bpf_map_update_elem flow_map (src_key skb) now) (src_key skb)
            = some now)
      ∧ ∀ (t : Nat) (m : Store) (udp : sk_buff), ip_protocol udp = 17 →
          filter_func bare t m udp = some (TC_ACT_OK, m) := by
  refine ⟨?_, fun hroom => lookup_update_self _ _ _ hroom, fun t m udp hp =>
    filter_func_bare_udp t m udp hp⟩
  rw [filter_func_bare_knock now flow_map skb htcp hsyn hport, Nat.mod_eq_of_lt hclock]

/-- Witness of C15: the SYN to port 0 at time 1000 against the empty store,
and the magic UDP datagram, which changes nothing in this mode. -/
theorem C15_bare_knock_witness :
    IsTcpFrame syn0_frame ∧ HasSyn syn0_frame ∧ dport syn0_frame = 0
      ∧ filter_func bare 1000 [] syn0_frame = some (TC_ACT_OK, [(addr_10_0_0_1, 1000)])
      ∧ filter_func bare 1000 [] knock_frame = some (TC_ACT_OK, []) :=
  have h := C15_bare_knock 1000 [] syn0_frame (by decide) (by decide) (by decide) (by decide)
  ⟨by decide, by decide, by decide, h.1, h.2.2 1000 [] knock_frame (by decide)⟩

/-- In the bare-connection configuration a SYN to port 0 against a store that
is full and has no entry for the source leaves the store as it is. -/
theorem bare_knock_on_full_store (now : Nat) (flow_map : Store) (skb : sk_buff)
    (htcp : IsTcpFrame skb) (hsyn : HasSyn skb) (hport : dport skb = 0)
    (hfull : max_entries ≤ flow_map.length)
    (hnone : bpf_map_lookup_elem flow_map (src_key skb) = none) :
    filter_func bare now flow_map skb = some (TC_ACT_OK, flow_map) := by
  rw [filter_func_bare_knock now flow_map skb htcp hsyn hport,
    update_full flow_map _ _ hnone hfull]

/-- Counterexample to C15 as stated: in the bare-connection mode, on a store
that is full and has no entry for 10.0.0.1, a SYN from 10.0.0.1 to port 0 is
accepted but the store is returned unchanged, without an entry for 10.0.0.1:
the entry is not set to the current time. -/
theorem C15_counterexample :
    IsTcpFrame syn0_frame ∧ HasSyn syn0_frame ∧ dport syn0_frame = 0
      ∧ src_key syn0_frame = addr_10_0_0_1
      ∧ filter_func bare 1000 full_store syn0_frame = some (TC_ACT_OK, full_store)
      ∧ bpf_map_lookup_elem full_store addr_10_0_0_1 = none :=
  ⟨by decide, by decide, by decide, by decide,
    bare_knock_on_full_store 1000 full_store syn0_frame (by decide) (by decide) (by decide)
      (le_of_eq full_store_length.symm) full_store_lookup,
    full_store_lookup⟩

/-! ## Bounds safety -/

/-- The gate part of `handle_tcp` reads the source address only; it is in
bounds once the TCP header is. -/
theorem handle_tcp_gate_ne_none (now : Nat) (flow_map : Store) (skb : sk_buff) (dest : Nat)
    (h54 : 54 ≤ skb.length) : handle_tcp_gate now flow_map skb 14 dest ≠ none := by
  unfold handle_tcp_gate
  simp only [off_saddr, Nat.reduceAdd, load32_eq skb 26 (by omega)]
  cases bpf_map_lookup_elem flow_map
      (byteAt skb 26 + 256 * byteAt skb 27 + 65536 * (byteAt skb 28 + 256 * byteAt skb 29)) with
  | none => split_ifs <;> simp
  | some value => simp only []; split_ifs <;> simp

theorem handle_tcp_ne_none (cfg : Config) (now : Nat) (flow_map : Store) (skb : sk_buff) :
    handle_tcp cfg now flow_map skb ≠ none := by
  unfold handle_tcp
  simp only [skb_data, sizeof_ethhdr, sizeof_iphdr, sizeof_tcphdr, off_dest, off_saddr,
    off_tcp_flags, data_end, tcp_syn, Nat.reduceAdd]
  by_cases h54 : skb.length < 54
  · simp [h54]
  · have hg := fun dest => handle_tcp_gate_ne_none now flow_map skb dest (by omega)
    simp only [load8_eq skb 47 (by omega), load16_eq skb 36 (by omega),
      load32_eq skb 26 (by omega), Nat.reduceAdd]
    cases tcp_knock_port cfg with
    | none => split_ifs <;> first | exact hg _ | simp
    | some p => simp only []; split_ifs <;> first | exact hg _ | simp

theorem handle_udp_ne_none (p mg now : Nat) (flow_map : Store) (skb : sk_buff) :
    handle_udp p mg now flow_map skb ≠ none := by
  unfold handle_udp
  simp only [skb_data, sizeof_ethhdr, sizeof_iphdr, sizeof_udphdr, off_dest, off_saddr,
    data_end, Nat.reduceAdd]
  by_cases h42 : skb.length < 42
  · simp [h42]
  · simp only [load16_eq skb 36 (by omega), Nat.reduceAdd]
    by_cases h46 : skb.length < 46
    · split_ifs <;> simp
    · simp only [load32_eq skb 42 (by omega), load32_eq skb 26 (by omega), Nat.reduceAdd]
      split_ifs <;> simp

theorem handle_ipv4_ne_none (cfg : Config) (now : Nat) (flow_map : Store) (skb : sk_buff) :
    handle_ipv4 cfg now flow_map skb ≠ none := by
  have htcp : ∀ protocol, handle_ipv4_tcp cfg now flow_map skb protocol ≠ none := by
    intro protocol
    unfold handle_ipv4_tcp
    split_ifs
    · exact handle_tcp_ne_none cfg now flow_map skb
    · simp
  unfold handle_ipv4
  simp only [skb_data, sizeof_ethhdr, sizeof_iphdr, off_protocol, data_end, Nat.reduceAdd]
  by_cases h34 : skb.length < 34
  · simp [h34]
  · simp only [load8_eq skb 23 (by omega)]
    cases udp_knock cfg with
    | none => split_ifs <;> first | exact htcp _ | simp
    | some pm =>
      obtain ⟨p, mg⟩ := pm
      simp only []
      split_ifs <;> first | exact htcp _ | exact handle_udp_ne_none _ _ _ _ _ | simp

theorem filter_func_ne_none (cfg : Config) (now : Nat) (flow_map : Store) (skb : sk_buff) :
    filter_func cfg now flow_map skb ≠ none := by
  unfold filter_func
  simp only [skb_data, sizeof_ethhdr, sizeof_iphdr, off_h_proto, data_end, Nat.reduceAdd]
  by_cases h34 : skb.length < 34
  · simp [h34]
  · simp only [load16_eq skb 12 (by omega)]
    split_ifs <;> first | exact handle_ipv4_ne_none _ _ _ _ | simp

/-- C16: bounds safety of the parser. Every load from the frame is checked
in this embedding and makes the function return `none` when it touches an
offset at or beyond `data_end`. For every configuration, time, store and
frame of every length and content, `filter_func`, `handle_ipv4`, `handle_udp`
and `handle_tcp` return a verdict, never `none`: every byte they read
(EtherType, IP protocol, source address, destination port, TCP flags, the
four UDP payload bytes) lies below the frame's end, and the out-of-bounds
branch of a load is unreachable. -/
theorem C16_no_out_of_bounds_read (cfg : Config) (p mg now : Nat) (flow_map : Store)
    (skb : sk_buff) :
    (∃ r, filter_func cfg now flow_map skb = some r)
      ∧ (∃ r, handle_ipv4 cfg now flow_map skb = some r)
      ∧ (∃ r, handle_udp p mg now flow_map skb = some r)
      ∧ (∃ r, handle_tcp cfg now flow_map skb = some r) :=
  ⟨Option.ne_none_iff_exists'.mp (filter_func_ne_none cfg now flow_map skb),
    Option.ne_none_iff_exists'.mp (handle_ipv4_ne_none cfg now flow_map skb),
    Option.ne_none_iff_exists'.mp (handle_udp_ne_none p mg now flow_map skb),
    Option.ne_none_iff_exists'.mp (handle_tcp_ne_none cfg now flow_map skb)⟩

/-! ## One knock mechanism -/

/-- C17: in the shipped configuration (`KNOCK_UDP_MAGIC` defined as
`0xdeadbeef`), for every IPv4 TCP frame with SYN set and destination port 0,
the segment sent for the bundled `tcp_zero_port_knocker` client,
`filter_func` returns `TC_ACT_OK` (ACCEPT) and leaves the store unchanged;
and whenever a frame leaves a key with a timestamp it did not have before,
that frame is a UDP magic datagram. -/
theorem C17_tcp_port_zero_is_no_knock (now : Nat) (flow_map : Store) (skb : sk_buff)
    (htcp : IsTcpFrame skb) (hsyn : HasSyn skb) (hport : dport skb = 0) :
    filter_func shipped now flow_map skb = some (TC_ACT_OK, flow_map)
      ∧ ∀ (t : Nat) (m : Store) (f : sk_buff) (k T : Nat),
          bpf_map_lookup_elem (step shipped m (t, f)) k = some T →
          bpf_map_lookup_elem m k ≠ some T → IsKnock f := by
  constructor
  · obtain ⟨⟨h34, h12, h13⟩, hp, h54⟩ := htcp
    have hd := (dport_eq_iff skb 0 (by decide)).mp hport
    unfold ip_protocol at hp
    unfold HasSyn at hsyn
    rw [filter_func_shipped]
    unfold classify
    rw [if_neg (by omega), if_neg (by simp [h12, h13]), if_neg (by omega), if_pos hp,
      if_neg (by omega), if_neg (by omega), if_pos (by omega)]
  · intro t m f k T hafter hbefore
    rcases step_cases t m f with hs | ⟨hk, _⟩ | ⟨_, hs⟩
    · rw [hs] at hafter; exact absurd hafter hbefore
    · exact hk
    · rw [hs] at hafter
      exact absurd (lookup_delete_cases _ _ _ hafter) hbefore

/-- Witness of C17: the SYN to port 0 at time 1000 against the empty store
leaves it empty, so a SYN to port 22 right after is dropped. -/
theorem C17_tcp_port_zero_is_no_knock_witness :
    IsTcpFrame syn0_frame ∧ HasSyn syn0_frame ∧ dport syn0_frame = 0
      ∧ filter_func shipped 1000 [] syn0_frame = some (TC_ACT_OK, [])
      ∧ verdict shipped 1001 (step shipped [] (1000, syn0_frame)) syn22_frame
          = some TC_ACT_SHOT :=
  ⟨by decide, by decide, by decide,
    (C17_tcp_port_zero_is_no_knock 1000 [] syn0_frame (by decide) (by decide) (by decide)).1,
    by decide⟩

/-! ## Frame properties -/

/-- C18: the per-key frame property. For every frame, store and time, the
store after `filter_func` agrees with the store before on every key other
than the frame's own source address (the 32-bit value at frame bytes
26..29): neither a knock nor an expiry deletion creates, changes or removes
another address's entry. -/
theorem C18_other_keys_untouched (now : Nat) (flow_map : Store) (skb : sk_buff) :
    ∃ (v : Int) (after : Store), filter_func shipped now flow_map skb = some (v, after)
      ∧ ∀ k, k ≠ src_key skb →
          bpf_map_lookup_elem after k = bpf_map_lookup_elem flow_map k := by
  obtain ⟨r, hr⟩ := Option.ne_none_iff_exists'.mp (filter_func_ne_none shipped now flow_map skb)
  refine ⟨r.1, r.2, hr, ?_⟩
  have hstep : step shipped flow_map (now, skb) = r.2 := by
    simp only [step, hr]
  intro k hk
  rw [← hstep]
  rcases step_cases now flow_map skb with hs | ⟨_, hs⟩ | ⟨_, hs⟩
  · rw [hs]
  · rw [hs, lookup_update_ne _ _ _ _ hk]
  · rw [hs, lookup_delete_ne _ _ _ hk]

/-- Witness of C18: a knock from 10.0.0.1 against a store that holds an
entry for the key 7: that entry is as before. -/
theorem C18_other_keys_untouched_witness :
    filter_func shipped 1000 [(7, 5)] knock_frame
        = some (TC_ACT_OK, [(addr_10_0_0_1, 1000), (7, 5)])
      ∧ ∃ (v : Int) (after : Store),
          filter_func shipped 1000 [(7, 5)] knock_frame = some (v, after)
          ∧ ∀ k, k ≠ src_key knock_frame →
              bpf_map_lookup_elem after k = bpf_map_lookup_elem [(7, 5)] k :=
  ⟨by decide, C18_other_keys_untouched 1000 [(7, 5)] knock_frame⟩

/-! ## Expiry arithmetic -/

/-- C19: the expiry arithmetic is unsigned 64-bit and fails closed when the
clock reads earlier than the stored timestamp. The window
`KNOCK_EXPIRE_TIME * 1000000000` is `60 * 10^9` and fits 64 bits; the age is
`(now - T) mod 2^64`; so for every entry timestamp `T` and time `now` with
`T > now` and `T - now < 2^64 - 60 * 10^9`, a TCP SYN to port 22 from that
source is dropped and the entry deleted. -/
theorem C19_clock_behind_entry_drops (now T : Nat) (flow_map : Store) (skb : sk_buff)
    (hsyn : IsSyn22 skb) (hentry : bpf_map_lookup_elem flow_map (src_key skb) = some T)
    (hT : T < 2 ^ 64) (hbehind : now < T) (hgap : T - now < 2 ^ 64 - 60000000000) :
    KNOCK_EXPIRE_TIME * 1000000000 < 2 ^ 64
      ∧ expire_ns = 60000000000
      ∧ u64_sub (bpf_ktime_get_ns now) T = now + 2 ^ 64 - T
      ∧ filter_func shipped now flow_map skb
          = some (TC_ACT_SHOT, bpf_map_delete_elem flow_map (src_key skb))
      ∧ bpf_map_lookup_elem (bpf_map_delete_elem flow_map (src_key skb)) (src_key skb)
          = none := by
  have hsub : u64_sub (now % 2 ^ 64) T = now + 2 ^ 64 - T := by
    unfold u64_sub
    norm_num at hT hgap ⊢
    omega
  refine ⟨by decide, expire_ns_eq, hsub, ?_, lookup_delete_self _ _⟩
  rw [filter_func_syn22 now flow_map skb hsyn, hentry]
  simp only []
  rw [hsub, if_pos (by norm_num at hT hgap ⊢; omega)]

/-- Witness of C19: an entry stamped 10 s, met by a SYN when the clock reads
5 ns. -/
theorem C19_clock_behind_entry_drops_witness :
    IsSyn22 syn22_frame
      ∧ u64_sub (bpf_ktime_get_ns 5) 10000000000 = 18446744063709551621
      ∧ filter_func shipped 5 [(addr_10_0_0_1, 10000000000)] syn22_frame
          = some (TC_ACT_SHOT, []) :=
  have h := C19_clock_behind_entry_drops 5 10000000000 [(addr_10_0_0_1, 10000000000)]
    syn22_frame (by decide) (by decide) (by decide) (by decide) (by decide)
  ⟨by decide, h.2.2.1, h.2.2.2.1⟩

/-! ## Fixed-offset parsing -/

/-- C20: fixed-offset parsing. The transport header is taken at frame offset
34, so any two frames of equal length that agree on EtherType (bytes 12..13),
IP protocol (byte 23), source address (bytes 26..29), destination port (bytes
36..37), UDP payload bytes 42..45 and the TCP SYN bit (of byte 47) get the
same verdict and the same resulting store from `filter_func`, for the same
input store and time: the IP header-length field, IP options, fragment offset
and the UDP length field have no influence. -/
theorem C20_fixed_offset_parsing (now : Nat) (flow_map : Store) (skb1 skb2 : sk_buff)
    (hlen : skb1.length = skb2.length)
    (hbytes : ∀ i ∈ inspected_offsets, byteAt skb1 i = byteAt skb2 i)
    (hsynbit : byteAt skb1 47 / 2 % 2 = byteAt skb2 47 / 2 % 2) :
    filter_func shipped now flow_map skb1 = filter_func shipped now flow_map skb2 := by
  have h12 := hbytes 12 (by decide)
  have h13 := hbytes 13 (by decide)
  have h23 := hbytes 23 (by decide)
  have h26 := hbytes 26 (by decide)
  have h27 := hbytes 27 (by decide)
  have h28 := hbytes 28 (by decide)
  have h29 := hbytes 29 (by decide)
  have h36 := hbytes 36 (by decide)
  have h37 := hbytes 37 (by decide)
  have h42 := hbytes 42 (by decide)
  have h43 := hbytes 43 (by decide)
  have h44 := hbytes 44 (by decide)
  have h45 := hbytes 45 (by decide)
  rw [filter_func_shipped, filter_func_shipped]
  unfold classify src_key
  rw [hlen, h12, h13, h23, h26, h27, h28, h29, h36, h37, h42, h43, h44, h45, hsynbit]

/-- Witness of C20: the SYN to port 22 and the same SYN under an IP header
with IHL 6, fragment bits, and other TTL, addresses and TCP flags beside
SYN. -/
theorem C20_fixed_offset_parsing_witness :
    syn22_frame ≠ syn22_ihl6_frame
      ∧ byteAt syn22_frame 14 = 0x45 ∧ byteAt syn22_ihl6_frame 14 = 0x46
      ∧ filter_func shipped 1000 [(addr_10_0_0_1, 5)] syn22_frame
          = filter_func shipped 1000 [(addr_10_0_0_1, 5)] syn22_ihl6_frame :=
  ⟨by decide, by decide, by decide,
    C20_fixed_offset_parsing 1000 [(addr_10_0_0_1, 5)] syn22_frame syn22_ihl6_frame
      (by decide) (by decide) (by decide)⟩

end PortKnocker
